import Mathlib

/-!
# Verification of the report-generation core (`informes/generador_pdf.py`)

This file gives a shallow embedding in Lean 4 of the parts of the report
generator that the specification talks about: the markup sanitizer
`limpiar_html_para_reportlab`, the analysis orchestration `_ejecutar_analisis`,
the comparative chart averages `_grafico_comparativo`, the executive summary
`_crear_resumen_ejecutivo`, the per-index section builders, the
recommendations section `_crear_seccion_recomendaciones`, the data table
`_crear_tabla_datos`, and the top-level `generar_informe_completo` control
flow.  Text is modelled as `List Char`, numeric values as `ℚ`, optional
values (Python `None` / missing dict keys) as `Option`, and Python
truthiness of an optional number is modelled explicitly.

Each of the five `re.sub` calls of the sanitizer is embedded as a
deterministic left-to-right scanner mirroring the scanning semantics of
`re.sub` (leftmost match, greedy quantifiers, scanning resumes after the
replaced text).  The scanners are written as structurally recursive state
machines so that they compute definitionally.
-/

namespace Historical

/-- Shorthand: the character list of a string literal. -/
def str (s : String) : List Char := s.data

/-- Python's whitespace class `\s` (ASCII part), also used by `str.strip`:
space, tab, newline, carriage return, vertical tab, form feed.  The
idempotence development below only uses that `' '` is whitespace and that
`'<'`, `'b'`, `'r'`, `'/'`, `'>'` are not, so the exact extension of the
class is irrelevant to the theorems. -/
def pySpace (c : Char) : Bool :=
  c == ' ' || c == '\t' || c == '\n' || c == '\r' || c == '\x0b' || c == '\x0c'

/-- Scanner for `re.sub(r'<br>\s*<br>', '<br/><br/>', texto)`.
State `none`: normal scanning.  State `some buf`: a first `<br>` has been
seen (not yet emitted) followed by the whitespace run `buf`; we are waiting
for a second `<br>`.  On success the whole match is replaced by
`<br/><br/>`; on failure the pending `<br>` and whitespace are emitted
verbatim (no character of the failed attempt can start a new match, since
the pattern starts with `<`). -/
def sub1go : List Char → Option (List Char) → List Char
  | '<' :: 'b' :: 'r' :: '>' :: rest, some _ =>
    '<' :: 'b' :: 'r' :: '/' :: '>' :: '<' :: 'b' :: 'r' :: '/' :: '>' :: sub1go rest none
  | c :: rest, some buf =>
    if pySpace c then sub1go rest (some (buf ++ [c]))
    else '<' :: 'b' :: 'r' :: '>' :: (buf ++ c :: sub1go rest none)
  | [], some buf => '<' :: 'b' :: 'r' :: '>' :: buf
  | '<' :: 'b' :: 'r' :: '>' :: rest, none => sub1go rest (some [])
  | c :: rest, none => c :: sub1go rest none
  | [], none => []

/-- First substitution of `limpiar_html_para_reportlab`:
`re.sub(r'<br>\s*<br>', '<br/><br/>', texto)`. -/
def sub1 (l : List Char) : List Char := sub1go l none

/-- Second substitution: `re.sub(r'<br(?!/)', '<br/', texto)`.  A bare
`<br` (not already followed by `/`) gets a `/` inserted; an occurrence
`<br/` is left alone (the negative lookahead fails, and scanning resumes
inside it without finding a new match). -/
def sub2 : List Char → List Char
  | '<' :: 'b' :: 'r' :: '/' :: rest2 => '<' :: 'b' :: 'r' :: '/' :: sub2 rest2
  | '<' :: 'b' :: 'r' :: rest => '<' :: 'b' :: 'r' :: '/' :: sub2 rest
  | c :: l => c :: sub2 l
  | [] => []

/-- Scanner for `re.sub(r'<br/>\s+', '<br/>', texto)`.  The flag records
whether we are right after an emitted `<br/>`, in which case the greedy
`\s+` swallows the whole following whitespace run. -/
def sub3go : List Char → Bool → List Char
  | '<' :: 'b' :: 'r' :: '/' :: '>' :: rest, _ =>
    '<' :: 'b' :: 'r' :: '/' :: '>' :: sub3go rest true
  | c :: rest, skip =>
    if skip && pySpace c then sub3go rest true
    else c :: sub3go rest false
  | [], _ => []

/-- Third substitution: `re.sub(r'<br/>\s+', '<br/>', texto)`. -/
def sub3 (l : List Char) : List Char := sub3go l false

/-- Scanner for `re.sub(r'\s+', ' ', texto)`: every whitespace run collapses
to a single space.  The flag records whether we are inside a run whose
single `' '` has already been emitted. -/
def sub4go : List Char → Bool → List Char
  | c :: rest, inRun =>
    if pySpace c then
      if inRun then sub4go rest true else ' ' :: sub4go rest true
    else c :: sub4go rest false
  | [], _ => []

/-- Fourth substitution: `re.sub(r'\s+', ' ', texto)`. -/
def sub4 (l : List Char) : List Char := sub4go l false

/-- Scanner for `re.sub(r'(<br/>)\s+(\S)', r'\1 \2', texto)`.
State `none`: normal scanning.  State `some buf`: an emitted `<br/>` is
followed by the nonempty whitespace run `buf` read so far; if a
non-whitespace character comes next the run collapses to one space and
that character is consumed (scanning resumes after it, exactly as `re.sub`
resumes after the group `\2`); if the input ends first there was no match
and the run is emitted verbatim. -/
def sub5go : List Char → Option (List Char) → List Char
  | c :: rest, some buf =>
    if pySpace c then sub5go rest (some (buf ++ [c]))
    else ' ' :: c :: sub5go rest none
  | [], some buf => buf
  | '<' :: 'b' :: 'r' :: '/' :: '>' :: c :: rest, none =>
    if pySpace c then '<' :: 'b' :: 'r' :: '/' :: '>' :: sub5go rest (some [c])
    else '<' :: 'b' :: 'r' :: '/' :: '>' :: sub5go (c :: rest) none
  | '<' :: 'b' :: 'r' :: '/' :: '>' :: [], none => '<' :: 'b' :: 'r' :: '/' :: '>' :: []
  | c :: l, none => c :: sub5go l none
  | [], none => []

/-- Fifth substitution: `re.sub(r'(<br/>)\s+(\S)', r'\1 \2', texto)`. -/
def sub5 (l : List Char) : List Char := sub5go l none

/-- Python `str.strip()`: drop leading and trailing whitespace. -/
def pyStrip (l : List Char) : List Char :=
  ((l.dropWhile pySpace).reverse.dropWhile pySpace).reverse

/-- The function `limpiar_html_para_reportlab` from `informes/generador_pdf.py`:
empty input yields empty output (Python `if not texto`), otherwise the five
substitutions are applied in order and the result is stripped. -/
def limpiar_html_para_reportlab (texto : List Char) : List Char :=
  if texto = [] then []
  else pyStrip (sub5 (sub4 (sub3 (sub2 (sub1 texto)))))

/-! ## Normal-form predicates for the idempotence proof

Each predicate says that no suffix of the text starts with a given bad
window; they are exactly the facts the sanitizer's output satisfies and
under which each substitution is the identity. -/

/-- Bad window for `sub2`: the text starts with a bare `<br` (not followed
by `/`). -/
def brBad : List Char → Bool
  | '<' :: 'b' :: 'r' :: rest =>
    match rest with
    | '/' :: _ => false
    | _ => true
  | _ => false

/-- No suffix starts with a bare `<br`. -/
def noBareBr : List Char → Bool
  | [] => true
  | c :: l => !brBad (c :: l) && noBareBr l

/-- Bad window for `sub3`/`sub5`: the text starts with `<br/>` followed by a
whitespace character. -/
def brWsBad : List Char → Bool
  | '<' :: 'b' :: 'r' :: '/' :: '>' :: c :: _ => pySpace c
  | _ => false

/-- No suffix starts with `<br/>` followed by whitespace. -/
def noBrWs : List Char → Bool
  | [] => true
  | c :: l => !brWsBad (c :: l) && noBrWs l

/-- Bad window for `sub4`: the text starts with a whitespace character that
is either not a plain space or is followed by more whitespace. -/
def wsBad : List Char → Bool
  | [] => false
  | c :: rest =>
    pySpace c && (!(c == ' ') || (match rest with | d :: _ => pySpace d | [] => false))

/-- Every whitespace character is a single `' '` followed by non-whitespace. -/
def wsNormal : List Char → Bool
  | [] => true
  | c :: l => !wsBad (c :: l) && wsNormal l

/-- The text neither starts nor ends with whitespace. -/
def noEdgeWs (l : List Char) : Bool :=
  (match l with | c :: _ => !pySpace c | [] => true) &&
  (match l.getLast? with | some c => !pySpace c | none => true)

/-! ## Data model

Dictionaries produced by `_preparar_datos_analisis` and consumed by the
analysers and section builders.  Numeric values are modelled as `ℚ`;
Python `None` (and a missing key where relevant) as `Option`. -/

/-- Python truthiness of `d.get(k)` for a float-or-`None` value: `None` and
`0.0` are falsy, any other number is truthy. -/
def truthy : Option ℚ → Bool
  | none => false
  | some v => v != 0

/-- Python truthiness of an optional string: missing and empty are falsy. -/
def truthyTexto : Option (List Char) → Bool
  | none => false
  | some s => !s.isEmpty

/-- One row of the model `IndiceMensual` as read from storage (only the
fields `_preparar_datos_analisis` uses). -/
structure IndiceMensual where
  anio : Int
  mes : Nat
  periodo_texto : List Char
  ndvi_promedio : Option ℚ
  ndmi_promedio : Option ℚ
  savi_promedio : Option ℚ
  temperatura_promedio : Option ℚ
  precipitacion_total : Option ℚ
deriving DecidableEq

/-- One element of the `datos` list built by `_preparar_datos_analisis`.
The `'mes'` entry `f"{anio}-{mes:02d}"` is modelled as the year/month pair
(it is not consumed by any section builder or chart). -/
structure Registro where
  mes : Int × Nat
  periodo : List Char
  ndvi : Option ℚ
  ndmi : Option ℚ
  savi : Option ℚ
  temperatura : Option ℚ
  precipitacion : Option ℚ
deriving DecidableEq

/-- The method `_preparar_datos_analisis`: one record per stored row, in order. -/
def preparar_datos_analisis (indices : List IndiceMensual) : List Registro :=
  indices.map fun i =>
    { mes := (i.anio, i.mes)
      periodo := i.periodo_texto
      ndvi := i.ndvi_promedio
      ndmi := i.ndmi_promedio
      savi := i.savi_promedio
      temperatura := i.temperatura_promedio
      precipitacion := i.precipitacion_total }

/-- Qualitative state `{'etiqueta', 'icono'}` of an analysis result. -/
structure Estado where
  etiqueta : List Char
  icono : List Char
deriving DecidableEq

/-- One alert `{'titulo', 'mensaje', 'icono'}`. -/
structure Alerta where
  titulo : List Char
  mensaje : List Char
  icono : List Char
deriving DecidableEq

/-- The statistics sub-dictionary (only `'promedio'` is consumed). -/
structure Estadisticas where
  promedio : ℚ
deriving DecidableEq

/-- Result dictionary of one index analyser.  The three index-specific
derived metrics (`cobertura_estimada` for NDVI, `riesgo_hidrico` for NDMI,
`exposicion_suelo` for SAVI) are carried as separate fields; each section
builder reads only the one for its index.  `puntuacion` is optional because
the executive summary reads it with `.get('puntuacion', 0)`. -/
structure Analisis where
  estado : Estado
  estadisticas : Estadisticas
  puntuacion : Option ℚ
  interpretacion_tecnica : List Char
  interpretacion_simple : List Char
  alertas : List Alerta
  cobertura_estimada : ℚ
  riesgo_hidrico : List Char
  exposicion_suelo : ℚ
deriving DecidableEq

/-- The `'tendencia_lineal'` sub-dictionary of the trend result. -/
structure TendenciaLineal where
  direccion : List Char
  fuerza : List Char
  cambio_porcentual : ℚ
  confianza : List Char
  r_cuadrado : ℚ
deriving DecidableEq

/-- Trend-detector result; both parts are read defensively by the code
(`'tendencia_lineal' in tendencias`, `tendencias.get('resumen')`). -/
structure Tendencias where
  tendencia_lineal : Option TendenciaLineal
  resumen : Option (List Char)
deriving DecidableEq

/-- One recommendation dictionary.  `prioridad` is optional because the
section builder reads it with `rec.get('prioridad', 'baja')`. -/
structure Recomendacion where
  titulo : List Char
  prioridad : Option (List Char)
  descripcion_tecnica : List Char
  descripcion_simple : List Char
  acciones : List (List Char)
  impacto_esperado : List Char
  tiempo_implementacion : List Char
deriving DecidableEq

/-- Composite bundle returned by `_ejecutar_analisis`; the `'savi'` key is
always present but its value may be `None`. -/
structure AnalisisCompleto where
  ndvi : Analisis
  ndmi : Analisis
  savi : Option Analisis
  tendencias : Tendencias
  recomendaciones : List Recomendacion
deriving DecidableEq

/-- The parcel fields the generator reads. -/
structure Parcela where
  nombre : List Char
  propietario : List Char
  tipo_cultivo : Option (List Char)
  area_hectareas : ℚ
deriving DecidableEq

/-- The external analysers (out of scope per the specification), already
instantiated with the crop type.  `_ejecutar_analisis` is parametric in
them. -/
structure Analizadores where
  ndvi : List Registro → Analisis
  ndmi : List Registro → Analisis
  savi : List Registro → Analisis
  tendencias : List Registro → List Char → Tendencias
  recomendaciones : Analisis → Analisis → Option Analisis → Tendencias → List Recomendacion

/-- The method `_ejecutar_analisis`: NDVI and NDMI unconditionally; SAVI only when
`any(d.get('savi') for d in datos)` (Python truthiness, so a present `0.0`
does not count); trend detection over the `'ndvi'` series; recommendations
from all previous results. -/
def ejecutar_analisis (A : Analizadores) (datos : List Registro) : AnalisisCompleto :=
  let analisis_ndvi := A.ndvi datos
  let analisis_ndmi := A.ndmi datos
  let analisis_savi := if datos.any (fun d => truthy d.savi) then some (A.savi datos) else none
  let tendencias := A.tendencias datos (str "ndvi")
  { ndvi := analisis_ndvi
    ndmi := analisis_ndmi
    savi := analisis_savi
    tendencias := tendencias
    recomendaciones := A.recomendaciones analisis_ndvi analisis_ndmi analisis_savi tendencias }

/-! ## Comparative chart (`_grafico_comparativo`) -/

/-- The value `ndvi_prom = sum(d.get('ndvi', 0) for d in datos) / len(datos)`.
(The key is always present, so `get` only turns a missing value into the
value itself; a `None` value would make Python's `sum` raise, which is
handled in `grafico_comparativo` below.) -/
def ndvi_prom (datos : List Registro) : ℚ :=
  (datos.map (fun d => d.ndvi.getD 0)).sum / datos.length

/-- The value `ndmi_prom`, as `ndvi_prom`. -/
def ndmi_prom (datos : List Registro) : ℚ :=
  (datos.map (fun d => d.ndmi.getD 0)).sum / datos.length

/-- The SAVI bar:
`sum(d.get('savi', 0) for d in datos if d.get('savi')) / max(1, len([d for d in datos if d.get('savi')]))`.
The filter is Python truthiness, so records with SAVI `None` or `0.0` are
excluded from both the sum and the count. -/
def savi_prom (datos : List Registro) : ℚ :=
  (((datos.filter (fun d => truthy d.savi)).map (fun d => d.savi.getD 0)).sum) /
    (max 1 (datos.filter (fun d => truthy d.savi)).length : ℕ)

/-- The method `_grafico_comparativo`, reduced to the three bar values it draws.
A `None` NDVI or NDMI value makes Python's `sum(...)` raise `TypeError`,
and an empty series makes the division raise `ZeroDivisionError`; both are
modelled as `Except.error`. -/
def grafico_comparativo (datos : List Registro) : Except Unit (ℚ × ℚ × ℚ) :=
  if datos.isEmpty then .error ()
  else if datos.any (fun d => d.ndvi.isNone) || datos.any (fun d => d.ndmi.isNone) then .error ()
  else .ok (ndvi_prom datos, ndmi_prom datos, savi_prom datos)

/-- Follows the claim's words, for comparison with `savi_prom`: the
arithmetic mean of the SAVI values taken over exactly the records where
SAVI is present (not `None`), and `0` if no record has a present value. -/
def savi_bar_spec (datos : List Registro) : ℚ :=
  let presentes := datos.filter (fun d => d.savi.isSome)
  if presentes.isEmpty then 0
  else ((presentes.map (fun d => d.savi.getD 0)).sum) / presentes.length

/-- Follows the amended claim's words: the mean over exactly the records
where SAVI is present and non-zero (Python-truthy), and `0` if there is no
such record. -/
def savi_bar_amended (datos : List Registro) : ℚ :=
  let presentes := datos.filter (fun d => truthy d.savi)
  if presentes.isEmpty then 0
  else ((presentes.map (fun d => d.savi.getD 0)).sum) / presentes.length

/-! ## Renderable blocks

Each constructor stands for one ReportLab flowable appended by a section
builder, tagged with the data interpolated into it. -/

/-- One cell of the monthly data table. `num q d` stands for the value `q`
formatted with `d` decimal places; `nd` is the literal `'N/D'` marker. -/
inductive Celda where
  | texto : List Char → Celda
  | nd : Celda
  | num : ℚ → Nat → Celda
deriving DecidableEq

/-- One flowable of the assembled story. -/
inductive Bloque where
  | titulo : List Char → Bloque
  | parrafo : List Char → Bloque
  | alerta : List Char → Bloque
  | espacio : ℚ → Bloque
  | salto : Bloque
  | imagen : List Char → Bloque
  | portada : Parcela → Bloque
  | infoParcela : Parcela → Bloque
  | resumenEjecutivo : ℚ → List Char → ℚ → ℚ → List Char → ℚ → ℚ → List Char → ℚ → Nat → Bloque
  | estadoNdvi : List Char → List Char → ℚ → Option ℚ → ℚ → Bloque
  | estadoNdmi : List Char → List Char → ℚ → Option ℚ → List Char → Bloque
  | estadoSavi : List Char → List Char → ℚ → ℚ → Bloque
  | tendenciaLineal : TendenciaLineal → Bloque
  | tituloPrioridad : List Char → Bloque
  | recomendacion : Nat → Recomendacion → List (List Char) → Bloque
  | tablaDatos : List (List Celda) → Bloque
deriving DecidableEq

/-- Abbreviation used by the section builders. -/
def limpiar (t : List Char) : List Char := limpiar_html_para_reportlab t

/-- The alert line `f"{alerta['icono']} <strong>{alerta['titulo']}:</strong> {alerta['mensaje']}"`. -/
def texto_alerta (a : Alerta) : List Char :=
  a.icono ++ str " <strong>" ++ a.titulo ++ str ":</strong> " ++ a.mensaje

/-- The alert blocks appended at the end of the NDVI/NDMI sections:
nothing when `analisis.get('alertas')` is falsy (empty list), otherwise a
spacer, a heading and one sanitized paragraph per alert, at most 3
(`analisis['alertas'][:3]`). -/
def bloques_alertas (alertas : List Alerta) : List Bloque :=
  if alertas.isEmpty then []
  else
    Bloque.espacio (1/2) :: Bloque.parrafo (str "<strong>⚠️ Alertas:</strong>") ::
      (alertas.take 3).map (fun a => Bloque.alerta (limpiar (texto_alerta a)))

/-- The method `_crear_seccion_ndvi`. -/
def crear_seccion_ndvi (analisis : Analisis) : List Bloque :=
  [Bloque.titulo (str "🌱 Análisis NDVI - Salud Vegetal"),
   Bloque.espacio (1/2),
   Bloque.estadoNdvi analisis.estado.icono analisis.estado.etiqueta
     analisis.estadisticas.promedio analisis.puntuacion analisis.cobertura_estimada,
   Bloque.espacio (1/2),
   Bloque.parrafo (str "<strong>Análisis Técnico:</strong>"),
   Bloque.parrafo (limpiar analisis.interpretacion_tecnica),
   Bloque.espacio (1/2),
   Bloque.parrafo (str "<strong>Explicación Sencilla:</strong>"),
   Bloque.parrafo (limpiar analisis.interpretacion_simple)] ++
  bloques_alertas analisis.alertas

/-- The method `_crear_seccion_ndmi`. -/
def crear_seccion_ndmi (analisis : Analisis) : List Bloque :=
  [Bloque.titulo (str "💧 Análisis NDMI - Contenido de Humedad"),
   Bloque.espacio (1/2),
   Bloque.estadoNdmi analisis.estado.icono analisis.estado.etiqueta
     analisis.estadisticas.promedio analisis.puntuacion analisis.riesgo_hidrico,
   Bloque.espacio (1/2),
   Bloque.parrafo (str "<strong>Análisis Técnico:</strong>"),
   Bloque.parrafo (limpiar analisis.interpretacion_tecnica),
   Bloque.espacio (1/2),
   Bloque.parrafo (str "<strong>Explicación Sencilla:</strong>"),
   Bloque.parrafo (limpiar analisis.interpretacion_simple)] ++
  bloques_alertas analisis.alertas

/-- The method `_crear_seccion_savi`: state, spacer, technical interpretation — and
nothing else (no plain-language interpretation, no alerts). -/
def crear_seccion_savi (analisis : Analisis) : List Bloque :=
  [Bloque.titulo (str "🌾 Análisis SAVI - Cobertura Vegetal"),
   Bloque.espacio (1/2),
   Bloque.estadoSavi analisis.estado.icono analisis.estado.etiqueta
     analisis.estadisticas.promedio analisis.exposicion_suelo,
   Bloque.espacio (1/2),
   Bloque.parrafo (str "<strong>Análisis Técnico:</strong>"),
   Bloque.parrafo (limpiar analisis.interpretacion_tecnica)]

/-- The value `promedio_general = (ndvi_punt + ndmi_punt) / 2` where each score is
read with `.get('puntuacion', 0)`; the SAVI score is not consulted. -/
def promedio_general (analisis : AnalisisCompleto) : ℚ :=
  (analisis.ndvi.puntuacion.getD 0 + analisis.ndmi.puntuacion.getD 0) / 2

/-- Number of high-priority recommendations reported by the executive
summary: `len([r for r in analisis['recomendaciones'] if r['prioridad'] == 'alta'])`.
(Python would raise `KeyError` on a recommendation without the key; the
comparison is modelled as false there, faithful whenever every
recommendation carries a priority.) -/
def n_prioritarias (recomendaciones : List Recomendacion) : Nat :=
  (recomendaciones.filter (fun r => r.prioridad = some (str "alta"))).length

/-- The method `_crear_resumen_ejecutivo`: title, spacer and one big paragraph
interpolating the overall score, both index states, the trend direction
read with `.get('tendencia_lineal', {}).get('direccion', 'estable')` and
`.get('cambio_porcentual', 0)`, and the count of high-priority
recommendations. -/
def crear_resumen_ejecutivo (analisis : AnalisisCompleto) : List Bloque :=
  [Bloque.titulo (str "📊 Resumen Ejecutivo"),
   Bloque.espacio (1/2),
   Bloque.resumenEjecutivo (promedio_general analisis)
     analisis.ndvi.estado.etiqueta analisis.ndvi.estadisticas.promedio
     (analisis.ndvi.puntuacion.getD 0)
     analisis.ndmi.estado.etiqueta analisis.ndmi.estadisticas.promedio
     (analisis.ndmi.puntuacion.getD 0)
     ((analisis.tendencias.tendencia_lineal.map TendenciaLineal.direccion).getD (str "estable"))
     ((analisis.tendencias.tendencia_lineal.map TendenciaLineal.cambio_porcentual).getD 0)
     (n_prioritarias analisis.recomendaciones)]

/-- The method `_crear_info_parcela` (contents not individually claimed). -/
def crear_info_parcela (parcela : Parcela) : List Bloque :=
  [Bloque.titulo (str "📍 Información de la Parcela"), Bloque.infoParcela parcela]

/-- The method `_crear_portada` (branding fallback not individually claimed). -/
def crear_portada (parcela : Parcela) : List Bloque :=
  [Bloque.portada parcela]

/-- The method `_crear_seccion_tendencias`: title, evolution chart with caption, the
trend summary paragraph when `tendencias.get('resumen')` is truthy, the
linear-trend paragraph when the key `'tendencia_lineal'` exists, then the
comparative chart with caption. -/
def crear_seccion_tendencias (tendencias : Tendencias) : List Bloque :=
  [Bloque.titulo (str "📈 Análisis de Tendencias Temporales"),
   Bloque.espacio (1/2),
   Bloque.imagen (str "evolucion_temporal"),
   Bloque.espacio (3/10),
   Bloque.parrafo (str "<strong>Figura 1:</strong> Evolución temporal de índices de vegetación durante el período analizado."),
   Bloque.espacio 1] ++
  (if truthyTexto tendencias.resumen then
      [Bloque.parrafo (limpiar (tendencias.resumen.getD []))]
    else []) ++
  (match tendencias.tendencia_lineal with
    | some tl => [Bloque.espacio (1/2), Bloque.tendenciaLineal tl]
    | none => []) ++
  [Bloque.espacio 1,
   Bloque.imagen (str "comparativo"),
   Bloque.espacio (3/10),
   Bloque.parrafo (str "<strong>Figura 2:</strong> Comparación de promedios de índices durante el período.")]

/-! ## Recommendations section (`_crear_seccion_recomendaciones`) -/

/-- The expression `rec.get('prioridad', 'baja')`. -/
def prioridad_efectiva (r : Recomendacion) : List Char :=
  r.prioridad.getD (str "baja")

/-- The three priority buckets of `por_prioridad`. -/
structure Grupos where
  alta : List Recomendacion
  media : List Recomendacion
  baja : List Recomendacion
deriving DecidableEq

/-- The grouping loop: each recommendation is appended to the bucket named
by its effective priority; `por_prioridad[prioridad]` raises `KeyError`
(modelled as `Except.error`) for any other priority string. -/
def agrupar_por_prioridad (g : Grupos) : List Recomendacion → Except Unit Grupos
  | [] => .ok g
  | r :: rs =>
    if prioridad_efectiva r = str "alta" then
      agrupar_por_prioridad { g with alta := g.alta ++ [r] } rs
    else if prioridad_efectiva r = str "media" then
      agrupar_por_prioridad { g with media := g.media ++ [r] } rs
    else if prioridad_efectiva r = str "baja" then
      agrupar_por_prioridad { g with baja := g.baja ++ [r] } rs
    else .error ()

/-- Rendering of one bucket's recommendations: a numbered table (whose
action list is `rec['acciones'][:5]`) and a spacer each, with the global
counter advancing by one per recommendation. -/
def bloques_recs (contador : Nat) : List Recomendacion → List Bloque
  | [] => []
  | r :: rs =>
    Bloque.recomendacion contador r (r.acciones.take 5) :: Bloque.espacio (1/2) ::
      bloques_recs (contador + 1) rs

/-- Rendering of one bucket: nothing when it is empty, otherwise the
priority heading followed by the numbered recommendations. -/
def bloques_grupo (etiqueta : List Char) (contador : Nat) (grupo : List Recomendacion) :
    List Bloque :=
  if grupo.isEmpty then []
  else Bloque.tituloPrioridad etiqueta :: Bloque.espacio (3/10) :: bloques_recs contador grupo

/-- The method `_crear_seccion_recomendaciones`: group by priority, then render the
buckets in the fixed order alta, media, baja with one global counter
starting at 1. -/
def crear_seccion_recomendaciones (recomendaciones : List Recomendacion) :
    Except Unit (List Bloque) := do
  let g ← agrupar_por_prioridad ⟨[], [], []⟩ recomendaciones
  pure ([Bloque.titulo (str "💡 Recomendaciones Agronómicas"),
         Bloque.espacio (1/2),
         Bloque.parrafo (str "A continuación se presentan las recomendaciones priorizadas para el manejo del cultivo, ordenadas por nivel de prioridad (Alta, Media, Baja)."),
         Bloque.espacio (1/2)] ++
        bloques_grupo (str "🔴 Prioridad Alta") 1 g.alta ++
        bloques_grupo (str "🟡 Prioridad Media") (1 + g.alta.length) g.media ++
        bloques_grupo (str "🟢 Prioridad Baja") (1 + g.alta.length + g.media.length) g.baja)

/-- The numbered recommendations of a rendered block list, in render order. -/
def numeradas (bloques : List Bloque) : List (Nat × Recomendacion) :=
  bloques.filterMap fun b =>
    match b with
    | Bloque.recomendacion n r _ => some (n, r)
    | _ => none

/-! ## Data table (`_crear_tabla_datos`) -/

/-- One optional metric cell:
`f"{dato.get(k, 0):.df}" if dato.get(k) else 'N/D'` — the guard is Python
truthiness, so both a missing value and a present `0` render as `'N/D'`. -/
def celda_opcional (v : Option ℚ) (decimales : Nat) : Celda :=
  if truthy v then Celda.num (v.getD 0) decimales else Celda.nd

/-- The table header row. -/
def encabezado : List Celda :=
  [Celda.texto (str "Período"), Celda.texto (str "NDVI"), Celda.texto (str "NDMI"),
   Celda.texto (str "SAVI"), Celda.texto (str "Temp (°C)"), Celda.texto (str "Precip (mm)")]

/-- One data row per monthly record. -/
def fila_datos (d : Registro) : List Celda :=
  [Celda.texto d.periodo,
   celda_opcional d.ndvi 3,
   celda_opcional d.ndmi 3,
   celda_opcional d.savi 3,
   celda_opcional d.temperatura 1,
   celda_opcional d.precipitacion 1]

/-- The method `_crear_tabla_datos`. -/
def crear_tabla_datos (datos : List Registro) : List Bloque :=
  [Bloque.titulo (str "📋 Datos Mensuales Detallados"),
   Bloque.espacio (1/2),
   Bloque.tablaDatos (encabezado :: datos.map fila_datos)]

/-! ## Document assembly and top-level control flow -/

/-- The story built by `generar_informe_completo` (lines 233–267): fixed
section order with page breaks; the SAVI section only when the bundle's
`'savi'` value is truthy (a non-`None` analysis dictionary).  The
recommendations section can raise (`KeyError`), which aborts the build. -/
def construir_story (parcela : Parcela) (analisis : AnalisisCompleto)
    (datos : List Registro) : Except Unit (List Bloque) := do
  let recs ← crear_seccion_recomendaciones analisis.recomendaciones
  pure (crear_portada parcela ++ [Bloque.salto] ++
        crear_resumen_ejecutivo analisis ++ [Bloque.salto] ++
        crear_info_parcela parcela ++ [Bloque.espacio 1] ++
        crear_seccion_ndvi analisis.ndvi ++ [Bloque.salto] ++
        crear_seccion_ndmi analisis.ndmi ++ [Bloque.salto] ++
        (match analisis.savi with
          | some s => crear_seccion_savi s ++ [Bloque.salto]
          | none => []) ++
        crear_seccion_tendencias analisis.tendencias ++ [Bloque.salto] ++
        recs ++ [Bloque.salto] ++
        crear_tabla_datos datos)

/-- The section title that identifies a SAVI section in a story. -/
def titulo_savi : Bloque := Bloque.titulo (str "🌾 Análisis SAVI - Cobertura Vegetal")

/-- Whether a block is the SAVI section title. -/
def esTituloSavi : Bloque → Bool
  | Bloque.titulo t => t == str "🌾 Análisis SAVI - Cobertura Vegetal"
  | _ => false

/-- Whether a story contains a SAVI section (identified by its title block). -/
def contiene_seccion_savi (bs : List Bloque) : Bool := bs.any esTituloSavi

/-- Whether a block is an alert paragraph. -/
def esAlerta : Bloque → Bool
  | Bloque.alerta _ => true
  | _ => false

/-- Errors surfaced by `generar_informe_completo` (both are `ValueError` in
Python) plus the `KeyError` a malformed priority would cause during story
construction. -/
inductive ErrorInforme where
  | parcelaNoEncontrada
  | sinDatos
  | claveInvalida
deriving DecidableEq

/-- Observable filesystem effects of `generar_informe_completo`. -/
inductive Efecto where
  | crearDirectorio : List Char → Efecto
  | escribirPdf : List Char → Efecto
deriving DecidableEq

/-- Control flow of `generar_informe_completo`: parcel lookup, monthly-index
query (its result is the `indices` argument), the `not indices.exists()`
check raising before anything else happens, then data preparation,
analysis, chart generation, output-path computation (`ruta_por_defecto`
stands for the timestamped default name), directory creation, story
construction and the PDF build.  The returned effect list records the
filesystem operations in program order. -/
def generar_informe_completo (A : Analizadores) (parcela : Option Parcela)
    (indices : List IndiceMensual) (output_path : Option (List Char))
    (ruta_por_defecto : List Char) :
    List Efecto × Except ErrorInforme (List Bloque × List Char) :=
  match parcela with
  | none => ([], .error .parcelaNoEncontrada)
  | some p =>
    if indices.isEmpty then ([], .error .sinDatos)
    else
      let datos := preparar_datos_analisis indices
      let analisis := ejecutar_analisis A datos
      let ruta := output_path.getD ruta_por_defecto
      match construir_story p analisis datos with
      | .error _ => ([.crearDirectorio ruta], .error .claveInvalida)
      | .ok story => ([.crearDirectorio ruta, .escribirPdf ruta], .ok (story, ruta))

/-! ## Concrete sample data for witnesses and counterexamples -/

/-- A sample parcel. -/
def parcelaDemo : Parcela :=
  { nombre := str "La Vega", propietario := str "S. Florez",
    tipo_cultivo := some (str "maíz"), area_hectareas := 3 }

/-- A sample analysis result. -/
def analisisDemo : Analisis :=
  { estado := { etiqueta := str "Bueno", icono := str "OK" }
    estadisticas := { promedio := 1/2 }
    puntuacion := some 8
    interpretacion_tecnica := str "TEC"
    interpretacion_simple := str "SIMPLE"
    alertas := []
    cobertura_estimada := 80
    riesgo_hidrico := str "bajo"
    exposicion_suelo := 20 }

/-- Sample analysers returning fixed results and no recommendations. -/
def analizadoresDemo : Analizadores :=
  { ndvi := fun _ => analisisDemo
    ndmi := fun _ => { analisisDemo with puntuacion := some 6 }
    savi := fun _ => analisisDemo
    tendencias := fun _ _ => { tendencia_lineal := none, resumen := none }
    recomendaciones := fun _ _ _ _ => [] }

/-- A record whose SAVI value is present but zero (and otherwise ordinary). -/
def registroSaviCero : Registro :=
  { mes := (2023, 1), periodo := str "Enero 2023", ndvi := some (1/2),
    ndmi := some (1/4), savi := some 0, temperatura := some 25,
    precipitacion := some 10 }

/-- A record whose SAVI value is present and non-zero. -/
def registroSaviUno : Registro :=
  { mes := (2023, 2), periodo := str "Febrero 2023", ndvi := some (1/2),
    ndmi := some (1/4), savi := some 1, temperatura := some 25,
    precipitacion := some 10 }

/-- Series for the C3 counterexample: SAVI present everywhere, but only with
the value `0`. -/
def datosSaviCero : List Registro := [registroSaviCero]

/-- Series for the C4 counterexample: one present-zero and one present-one
SAVI value. -/
def datosSaviMixto : List Registro := [registroSaviCero, registroSaviUno]

/-- A record with a present-zero NDVI (for the data-table counterexample). -/
def registroNdviCero : Registro :=
  { mes := (2023, 1), periodo := str "2023-01", ndvi := some 0,
    ndmi := none, savi := some 0, temperatura := some 25,
    precipitacion := some 0 }

/-- Analysis bundle with NDVI score 8, NDMI score 6 and a present SAVI
analysis carrying a (never consulted) score. -/
def analisisCompletoDemo : AnalisisCompleto :=
  { ndvi := analisisDemo
    ndmi := { analisisDemo with puntuacion := some 6 }
    savi := some { analisisDemo with puntuacion := some 1 }
    tendencias := { tendencia_lineal := none, resumen := none }
    recomendaciones := [] }

/-- A sample recommendation with the given priority field and title. -/
def recDemo (p : Option (List Char)) (t : List Char) : Recomendacion :=
  { titulo := t, prioridad := p, descripcion_tecnica := str "dt",
    descripcion_simple := str "ds", acciones := [str "a1", str "a2"],
    impacto_esperado := str "imp", tiempo_implementacion := str "2 semanas" }

/-- Sample recommendation list with all three priorities interleaved. -/
def recsDemo : List Recomendacion :=
  [recDemo (some (str "media")) (str "m1"), recDemo (some (str "alta")) (str "a1"),
   recDemo (some (str "baja")) (str "b1"), recDemo (some (str "alta")) (str "a2")]

/-- Sample recommendation list where one entry has no priority field. -/
def recsDemoSin : List Recomendacion :=
  [recDemo (some (str "alta")) (str "a1"), recDemo none (str "x1"),
   recDemo (some (str "media")) (str "m1")]

/-! # Theorems

## Sanitizer test vectors (validated against the Python implementation) -/

example : limpiar_html_para_reportlab (str "<br><br>") = str "<br/><br/>" := by decide
example : limpiar_html_para_reportlab (str "<br> hola  mundo") = str "<br/>hola mundo" := by decide
example : limpiar_html_para_reportlab (str "a<br>b") = str "a<br/>b" := by decide
example : limpiar_html_para_reportlab (str "  x  y ") = str "x y" := by decide
example : limpiar_html_para_reportlab (str "<br/>   z") = str "<br/>z" := by decide
example : limpiar_html_para_reportlab (str "<br<br> q") = str "<br/<br/>q" := by decide
example : limpiar_html_para_reportlab (str "<br") = str "<br/" := by decide
example : sub1 (str "<br>  <br>x") = str "<br/><br/>x" := by decide
example : sub1 (str "<br> <br> <br>") = str "<br/><br/> <br>" := by decide
example : sub2 (str "<brx<br") = str "<br/x<br/" := by decide
example : sub3 (str "<br/>  a") = str "<br/>a" := by decide
example : sub4 (str "a \t b") = str "a b" := by decide
example : sub5 (str "<br/> a") = str "<br/> a" := by decide
example : sub5 (str "<br/>  ") = str "<br/>  " := by decide

/-! ## Bad-window lemmas -/

theorem noBareBr_cons (c : Char) (l : List Char) :
    noBareBr (c :: l) = (!brBad (c :: l) && noBareBr l) := rfl

theorem noBrWs_cons (c : Char) (l : List Char) :
    noBrWs (c :: l) = (!brWsBad (c :: l) && noBrWs l) := rfl

theorem wsNormal_cons (c : Char) (l : List Char) :
    wsNormal (c :: l) = (!wsBad (c :: l) && wsNormal l) := rfl

theorem brBad_of_ne {c : Char} (X : List Char) (h : c ≠ '<') : brBad (c :: X) = false := by
  unfold brBad
  split
  · rename_i heq; cases heq; exact absurd rfl h
  · rfl

theorem brBad_lt_of_not_br (X : List Char) (h : ∀ r, X ≠ 'b' :: 'r' :: r) :
    brBad ('<' :: X) = false := by
  unfold brBad
  split
  · rename_i heq; cases heq; exact absurd rfl (h _)
  · rfl

theorem brBad_lt_br_cons (e : Char) (rest : List Char) (he : e ≠ '/') :
    brBad ('<' :: 'b' :: 'r' :: e :: rest) = true := by
  unfold brBad
  split
  · split
    · rename_i heq; cases heq; exact absurd rfl he
    · rfl
  · rename_i hno
    exact (hno (e :: rest) rfl).elim

theorem brBad_lt_br_nil : brBad ['<', 'b', 'r'] = true := rfl

theorem brBad_lt_br (X : List Char) (h : ∀ r, X ≠ '/' :: r) :
    brBad ('<' :: 'b' :: 'r' :: X) = true := by
  cases X with
  | nil => rfl
  | cons e rest =>
    exact brBad_lt_br_cons e rest (fun hee => h rest (by rw [hee]))

theorem brBad_brs (X : List Char) : brBad ('<' :: 'b' :: 'r' :: '/' :: X) = false := rfl

theorem brWsBad_of_ne {c : Char} (X : List Char) (h : c ≠ '<') : brWsBad (c :: X) = false := by
  unfold brWsBad
  split
  · rename_i heq; cases heq; exact absurd rfl h
  · rfl

theorem brWsBad_br_cons (c : Char) (X : List Char) :
    brWsBad ('<' :: 'b' :: 'r' :: '/' :: '>' :: c :: X) = pySpace c := rfl

theorem brWsBad_br_head (X : List Char) (h : ∀ c, X.head? = some c → pySpace c = false) :
    brWsBad ('<' :: 'b' :: 'r' :: '/' :: '>' :: X) = false := by
  cases X with
  | nil => rfl
  | cons c rest => rw [brWsBad_br_cons]; exact h c rfl

theorem brWsBad_lt_of_not (X : List Char) (h : ∀ r, X ≠ 'b' :: 'r' :: '/' :: '>' :: r) :
    brWsBad ('<' :: X) = false := by
  unfold brWsBad
  split
  · rename_i heq; cases heq; exact absurd rfl (h _)
  · rfl

theorem wsBad_of_not_space {c : Char} (X : List Char) (h : pySpace c = false) :
    wsBad (c :: X) = false := by
  have : wsBad (c :: X) =
      (pySpace c && (!(c == ' ') || (match X with | d :: _ => pySpace d | [] => false))) := rfl
  rw [this, h]; rfl

theorem wsBad_space_nil : wsBad [' '] = false := rfl

theorem wsBad_space_cons (d : Char) (X : List Char) : wsBad (' ' :: d :: X) = pySpace d := rfl

theorem wsBad_space_head (X : List Char) (h : ∀ c, X.head? = some c → pySpace c = false) :
    wsBad (' ' :: X) = false := by
  cases X with
  | nil => rfl
  | cons d rest => rw [wsBad_space_cons]; exact h d rfl

/-! ## Single-step reductions of the no-bad-window predicates -/

theorem noBareBr_brs (X : List Char) :
    noBareBr ('<' :: 'b' :: 'r' :: '/' :: X) = noBareBr X := rfl

theorem noBareBr_cons_ne {c : Char} (X : List Char) (h : c ≠ '<') :
    noBareBr (c :: X) = noBareBr X := by
  rw [noBareBr_cons, brBad_of_ne X h]; rfl

theorem noBareBr_tail {c : Char} {l : List Char} (h : noBareBr (c :: l) = true) :
    noBareBr l = true := by
  rw [noBareBr_cons, Bool.and_eq_true] at h; exact h.2

theorem noBrWs_brs (X : List Char) :
    noBrWs ('<' :: 'b' :: 'r' :: '/' :: '>' :: X) =
      (!brWsBad ('<' :: 'b' :: 'r' :: '/' :: '>' :: X) && noBrWs X) := rfl

theorem noBrWs_cons_ne {c : Char} (X : List Char) (h : c ≠ '<') :
    noBrWs (c :: X) = noBrWs X := by
  rw [noBrWs_cons, brWsBad_of_ne X h]; rfl

theorem noBrWs_tail {c : Char} {l : List Char} (h : noBrWs (c :: l) = true) :
    noBrWs l = true := by
  rw [noBrWs_cons, Bool.and_eq_true] at h; exact h.2

theorem wsNormal_cons_not_space {c : Char} (X : List Char) (h : pySpace c = false) :
    wsNormal (c :: X) = wsNormal X := by
  rw [wsNormal_cons, wsBad_of_not_space X h]; rfl

theorem wsNormal_tail {c : Char} {l : List Char} (h : wsNormal (c :: l) = true) :
    wsNormal l = true := by
  rw [wsNormal_cons, Bool.and_eq_true] at h; exact h.2

/-! ## Generic closure lemmas -/

theorem pred_dropWhile {P : List Char → Bool}
    (hP : ∀ c l, P (c :: l) = true → P l = true) (p : Char → Bool) :
    ∀ l, P l = true → P (l.dropWhile p) = true := by
  intro l
  induction l with
  | nil => intro h; simpa [List.dropWhile]
  | cons c l ih =>
    intro h
    rw [List.dropWhile_cons]
    split
    · exact ih (hP c l h)
    · exact h

theorem noBareBr_dropWhile (p : Char → Bool) {l : List Char} (h : noBareBr l = true) :
    noBareBr (l.dropWhile p) = true :=
  pred_dropWhile (fun _ _ => noBareBr_tail) p l h

theorem noBrWs_dropWhile (p : Char → Bool) {l : List Char} (h : noBrWs l = true) :
    noBrWs (l.dropWhile p) = true :=
  pred_dropWhile (fun _ _ => noBrWs_tail) p l h

theorem wsNormal_dropWhile (p : Char → Bool) {l : List Char} (h : wsNormal l = true) :
    wsNormal (l.dropWhile p) = true :=
  pred_dropWhile (fun _ _ => wsNormal_tail) p l h

theorem pred_of_append {Bad noX : List Char → Bool}
    (hunf : ∀ c l, noX (c :: l) = (!Bad (c :: l) && noX l)) (hnil : noX [] = true)
    {s : List Char} (mono : ∀ t, Bad t = true → Bad (t ++ s) = true) :
    ∀ a, noX (a ++ s) = true → noX a = true := by
  intro a
  induction a with
  | nil => intro _; exact hnil
  | cons c a ih =>
    intro h
    rw [List.cons_append, hunf, Bool.and_eq_true] at h
    rw [hunf, Bool.and_eq_true]
    refine ⟨?_, ih h.2⟩
    rcases hb : Bad (c :: a) with _ | _
    · rfl
    · have := mono (c :: a) hb
      rw [List.cons_append] at this
      rw [this] at h
      exact absurd h.1 (by simp)

theorem brBad_shape {t : List Char} (h : brBad t = true) :
    ∃ rest, t = '<' :: 'b' :: 'r' :: rest ∧ ∀ r, rest ≠ '/' :: r := by
  unfold brBad at h
  split at h
  · rename_i r1
    refine ⟨r1, rfl, ?_⟩
    intro r hr
    rw [hr] at h
    exact absurd h (by simp)
  · exact absurd h (by simp)

theorem brBad_append_mono {s : List Char} (hs : ∀ c ∈ s, pySpace c = true) :
    ∀ t, brBad t = true → brBad (t ++ s) = true := by
  intro t h
  obtain ⟨rest, rfl, hrest⟩ := brBad_shape h
  simp only [List.cons_append]
  cases rest with
  | nil =>
    cases s with
    | nil => exact brBad_lt_br_nil
    | cons d s' =>
      have hd : pySpace d = true := hs d (by simp)
      have hd' : d ≠ '/' := by
        intro he; rw [he] at hd; exact absurd hd (by decide)
      exact brBad_lt_br_cons d s' hd'
  | cons e rest' =>
    have he : e ≠ '/' := fun hee => hrest rest' (by rw [hee])
    exact brBad_lt_br_cons e (rest' ++ s) he

theorem brWsBad_shape {t : List Char} (h : brWsBad t = true) :
    ∃ c rest, t = '<' :: 'b' :: 'r' :: '/' :: '>' :: c :: rest ∧ pySpace c = true := by
  unfold brWsBad at h
  split at h
  · rename_i c rest
    exact ⟨c, rest, rfl, h⟩
  · exact absurd h (by simp)

theorem brWsBad_append_mono (s : List Char) :
    ∀ t, brWsBad t = true → brWsBad (t ++ s) = true := by
  intro t h
  obtain ⟨c, rest, rfl, hc⟩ := brWsBad_shape h
  simp only [List.cons_append]
  rw [brWsBad_br_cons]
  exact hc

theorem wsBad_cons_cons (c d : Char) (rest : List Char) :
    wsBad (c :: d :: rest) = (pySpace c && (!(c == ' ') || pySpace d)) := rfl

theorem wsBad_single (c : Char) : wsBad [c] = (pySpace c && !(c == ' ')) := by
  have h : wsBad [c] = (pySpace c && (!(c == ' ') || false)) := rfl
  rw [h, Bool.or_false]

theorem wsBad_append_mono (s : List Char) : ∀ t, wsBad t = true → wsBad (t ++ s) = true := by
  intro t h
  cases t with
  | nil => exact absurd h (by simp [wsBad])
  | cons c rest =>
    cases rest with
    | nil =>
      rw [wsBad_single, Bool.and_eq_true] at h
      cases s with
      | nil => rw [List.append_nil, wsBad_single, Bool.and_eq_true]; exact h
      | cons d s' =>
        simp only [List.cons_append, List.nil_append]
        rw [wsBad_cons_cons, h.1, h.2, Bool.true_and, Bool.true_or]
    | cons d rest' =>
      rw [wsBad_cons_cons] at h
      simp only [List.cons_append]
      rw [wsBad_cons_cons]
      exact h

theorem noBareBr_of_append {a s : List Char} (hs : ∀ c ∈ s, pySpace c = true)
    (h : noBareBr (a ++ s) = true) : noBareBr a = true :=
  pred_of_append noBareBr_cons rfl (brBad_append_mono hs) a h

theorem noBrWs_of_append {a s : List Char} (h : noBrWs (a ++ s) = true) : noBrWs a = true :=
  pred_of_append noBrWs_cons rfl (brWsBad_append_mono s) a h

theorem wsNormal_of_append {a s : List Char} (h : wsNormal (a ++ s) = true) :
    wsNormal a = true :=
  pred_of_append wsNormal_cons rfl (wsBad_append_mono s) a h

/-! ## Each substitution is the identity on normalized text -/

theorem sub1go_id : ∀ (l : List Char) (s : Option (List Char)),
    s = none → noBareBr l = true → sub1go l s = l := by
  intro l s
  induction l, s using sub1go.induct with
  | case1 rest val ih => intro hs _; cases hs
  | case2 c rest buf h1 h2 ih => intro hs _; cases hs
  | case3 c rest buf h1 h2 ih => intro hs _; cases hs
  | case4 buf => intro hs _; cases hs
  | case5 rest ih =>
    intro _ hB
    rw [noBareBr_cons, Bool.and_eq_true, brBad_lt_br_cons '>' rest (by decide)] at hB
    exact absurd hB.1 (by simp)
  | case6 c rest hno ih =>
    intro _ hB
    simp only [sub1go]
    rw [ih rfl (noBareBr_tail hB)]
  | case7 => intro _ _; rfl

theorem sub1_id {l : List Char} (h : noBareBr l = true) : sub1 l = l :=
  sub1go_id l none rfl h

theorem sub2_id {l : List Char} (h : noBareBr l = true) : sub2 l = l := by
  induction l using sub2.induct with
  | case1 rest2 ih =>
    rw [noBareBr_brs] at h
    show '<' :: 'b' :: 'r' :: '/' :: sub2 rest2 = _
    rw [ih h]
  | case2 rest hno ih =>
    rw [noBareBr_cons, Bool.and_eq_true, brBad_lt_br rest (fun r hr => hno r hr)] at h
    exact absurd h.1 (by simp)
  | case3 c l hno1 hno2 ih =>
    simp only [sub2]
    rw [ih (noBareBr_tail h)]
  | case4 => rfl

theorem sub3go_id : ∀ (l : List Char) (skip : Bool),
    noBrWs l = true →
    (skip = true → ∀ c, l.head? = some c → pySpace c = false) →
    sub3go l skip = l := by
  intro l skip
  induction l, skip using sub3go.induct with
  | case1 rest skip ih =>
    intro hW hhd
    rw [noBrWs_brs, Bool.and_eq_true] at hW
    have hhd' : ∀ c, rest.head? = some c → pySpace c = false := by
      intro c hc
      cases rest with
      | nil => cases hc
      | cons d rest' =>
        cases hc
        rw [brWsBad_br_cons] at hW
        simpa using hW.1
    simp only [sub3go]
    rw [ih hW.2 (fun _ => hhd')]
  | case2 c rest skip hno hcond ih =>
    intro hW hhd
    rw [Bool.and_eq_true] at hcond
    have := hhd hcond.1 c rfl
    rw [this] at hcond
    exact absurd hcond.2 (by simp)
  | case3 c rest skip hno hcond ih =>
    intro hW hhd
    simp only [sub3go]
    rw [if_neg (by simpa [Bool.and_eq_true] using hcond)]
    rw [ih (noBrWs_tail hW) (by intro h; cases h)]
  | case4 skip => intro _ _; rfl

theorem sub3_id {l : List Char} (h : noBrWs l = true) : sub3 l = l :=
  sub3go_id l false h (by intro h'; cases h')

theorem wsNormal_space_facts {c : Char} {rest : List Char} (hws : pySpace c = true)
    (hN : wsNormal (c :: rest) = true) :
    c = ' ' ∧ (∀ d, rest.head? = some d → pySpace d = false) := by
  rw [wsNormal_cons, Bool.and_eq_true] at hN
  cases rest with
  | nil =>
    rw [wsBad_single, hws, Bool.true_and] at hN
    have hsp : (c == ' ') = true := by
      rcases hq : (c == ' ') with _ | _
      · rw [hq] at hN; simp at hN
      · rfl
    exact ⟨by simpa using hsp, by intro d hd; cases hd⟩
  | cons e rest' =>
    rw [wsBad_cons_cons, hws, Bool.true_and] at hN
    have hsp : (c == ' ') = true := by
      rcases hq : (c == ' ') with _ | _
      · rw [hq] at hN; simp at hN
      · rfl
    have hpe : pySpace e = false := by
      rcases hq : pySpace e with _ | _
      · rfl
      · rw [hsp, hq] at hN; simp at hN
    exact ⟨by simpa using hsp, by intro d hd; cases hd; exact hpe⟩

theorem sub4go_id : ∀ (l : List Char) (inRun : Bool),
    wsNormal l = true →
    (inRun = true → ∀ c, l.head? = some c → pySpace c = false) →
    sub4go l inRun = l := by
  intro l inRun
  induction l, inRun using sub4go.induct with
  | case1 c rest hws ih =>
    intro hN hhd
    have := hhd rfl c rfl
    rw [this] at hws
    cases hws
  | case2 c rest inRun hws hir ih =>
    intro hN hhd
    obtain ⟨hc, hhd'⟩ := wsNormal_space_facts hws hN
    simp only [sub4go]
    rw [if_pos hws, if_neg hir]
    rw [ih (wsNormal_tail hN) (fun _ => hhd'), hc]
  | case3 c rest inRun hws ih =>
    intro hN hhd
    simp only [sub4go]
    rw [if_neg hws]
    rw [ih (wsNormal_tail hN) (by intro h'; cases h')]
  | case4 inRun => intro _ _; rfl

theorem sub4_id {l : List Char} (h : wsNormal l = true) : sub4 l = l :=
  sub4go_id l false h (by intro h'; cases h')

theorem sub5go_id : ∀ (l : List Char) (s : Option (List Char)),
    s = none → noBrWs l = true → sub5go l s = l := by
  intro l s
  induction l, s using sub5go.induct with
  | case1 c rest buf hws ih => intro hs _; cases hs
  | case2 c rest buf hws ih => intro hs _; cases hs
  | case3 buf => intro hs _; cases hs
  | case4 c rest hws ih =>
    intro _ hW
    rw [noBrWs_brs, Bool.and_eq_true, brWsBad_br_cons] at hW
    rw [hws] at hW
    exact absurd hW.1 (by simp)
  | case5 c rest hws ih =>
    intro _ hW
    rw [noBrWs_brs, Bool.and_eq_true] at hW
    simp only [sub5go]
    rw [if_neg hws]
    rw [ih rfl hW.2]
  | case6 => intro _ _; rfl
  | case7 c l hno1 hno2 ih =>
    intro _ hW
    simp only [sub5go]
    rw [ih rfl (noBrWs_tail hW)]
  | case8 => intro _ _; rfl

theorem sub5_id {l : List Char} (h : noBrWs l = true) : sub5 l = l :=
  sub5go_id l none rfl h

theorem dropWhile_eq_self_of {p : Char → Bool} (l : List Char)
    (h : ∀ c, l.head? = some c → p c = false) : l.dropWhile p = l := by
  cases l with
  | nil => rfl
  | cons c rest =>
    rw [List.dropWhile_cons, if_neg]
    rw [h c rfl]
    simp

theorem noEdgeWs_strip_id {l : List Char} (h : noEdgeWs l = true) : pyStrip l = l := by
  unfold noEdgeWs at h
  rw [Bool.and_eq_true] at h
  obtain ⟨ha, hb⟩ := h
  have h1 : ∀ c, l.head? = some c → pySpace c = false := by
    intro c hc
    cases l with
    | nil => cases hc
    | cons d rest => cases hc; simpa using ha
  have h2 : ∀ c, l.getLast? = some c → pySpace c = false := by
    intro c hc
    rcases hg : l.getLast? with _ | d
    · rw [hg] at hc; cases hc
    · rw [hg] at hc
      cases hc
      rw [hg] at hb
      simpa using hb
  unfold pyStrip
  rw [dropWhile_eq_self_of l h1]
  rw [dropWhile_eq_self_of l.reverse (by intro c hc; rw [List.head?_reverse] at hc; exact h2 c hc)]
  exact l.reverse_reverse

/-! ## Head and shape preservation of the scanners -/

theorem sub2_head? : ∀ l : List Char, (sub2 l).head? = l.head? := by
  intro l
  induction l using sub2.induct with
  | case1 rest2 ih => rfl
  | case2 rest hno ih => simp only [sub2, List.head?_cons]
  | case3 c l hno1 hno2 ih => simp only [sub2, List.head?_cons]
  | case4 => rfl

theorem sub2_br_shape {l r : List Char} (h : sub2 l = 'b' :: 'r' :: r) :
    ∃ r', l = 'b' :: 'r' :: r' := by
  have h1 : l.head? = some 'b' := by rw [← sub2_head?, h]; rfl
  cases l with
  | nil => cases h1
  | cons c l1 =>
    have hc : c = 'b' := by simpa using h1
    subst hc
    have h2 : sub2 ('b' :: l1) = 'b' :: sub2 l1 := rfl
    rw [h2] at h
    have h3 : sub2 l1 = 'r' :: r := by injection h
    have h4 : l1.head? = some 'r' := by rw [← sub2_head?, h3]; rfl
    cases l1 with
    | nil => cases h4
    | cons d l2 =>
      have hd : d = 'r' := by simpa using h4
      subst hd
      exact ⟨l2, rfl⟩

theorem sub3go_cons_ne {d : Char} (l : List Char) (hd : d ≠ '<') :
    sub3go (d :: l) false = d :: sub3go l false := by
  have hno : ∀ (r : List Char), d = '<' → l = 'b' :: 'r' :: '/' :: '>' :: r → False :=
    fun _ hdeq _ => hd hdeq
  simp only [sub3go]
  rw [if_neg (by simp)]

theorem sub3go_false_head? : ∀ (l : List Char) (s : Bool),
    s = false → (sub3go l false).head? = l.head? := by
  intro l s
  induction l, s using sub3go.induct with
  | case1 rest skip ih => intro _; rfl
  | case2 c rest skip hno hcond ih =>
    intro hs
    subst hs
    rw [Bool.false_and] at hcond
    cases hcond
  | case3 c rest skip hno hcond ih =>
    intro _
    simp only [sub3go]
    rw [if_neg (by simp)]
    simp only [List.head?_cons]
  | case4 skip => intro _; rfl

theorem sub3go_br_shape {l r : List Char} (h : sub3go l false = 'b' :: 'r' :: r) :
    ∃ r', l = 'b' :: 'r' :: r' := by
  have h1 : l.head? = some 'b' := by
    rw [← sub3go_false_head? l false rfl, h]; rfl
  cases l with
  | nil => cases h1
  | cons c l1 =>
    have hc : c = 'b' := by simpa using h1
    subst hc
    rw [sub3go_cons_ne l1 (by decide)] at h
    have h3 : sub3go l1 false = 'r' :: r := by injection h
    have h4 : l1.head? = some 'r' := by
      rw [← sub3go_false_head? l1 false rfl, h3]; rfl
    cases l1 with
    | nil => cases h4
    | cons d l2 =>
      have hd : d = 'r' := by simpa using h4
      subst hd
      exact ⟨l2, rfl⟩

theorem sub3go_brs4_shape {l r : List Char}
    (h : sub3go l false = 'b' :: 'r' :: '/' :: '>' :: r) :
    ∃ r', l = 'b' :: 'r' :: '/' :: '>' :: r' := by
  obtain ⟨r1, rfl⟩ := sub3go_br_shape h
  rw [sub3go_cons_ne _ (by decide), sub3go_cons_ne _ (by decide)] at h
  have h3 : sub3go r1 false = '/' :: '>' :: r := by
    injection h with _ h; injection h
  have h4 : r1.head? = some '/' := by
    rw [← sub3go_false_head? r1 false rfl, h3]; rfl
  cases r1 with
  | nil => cases h4
  | cons d l2 =>
    have hd : d = '/' := by simpa using h4
    subst hd
    rw [sub3go_cons_ne _ (by decide)] at h3
    have h5 : sub3go l2 false = '>' :: r := by injection h3
    have h6 : l2.head? = some '>' := by
      rw [← sub3go_false_head? l2 false rfl, h5]; rfl
    cases l2 with
    | nil => cases h6
    | cons e l3 =>
      have he : e = '>' := by simpa using h6
      subst he
      exact ⟨l3, rfl⟩

theorem sub3go_true_head : ∀ (l : List Char) (s : Bool) (c : Char),
    (sub3go l true).head? = some c → pySpace c = false := by
  intro l s
  induction l, s using sub3go.induct with
  | case1 rest skip ih =>
    intro c hc
    simp only [sub3go, List.head?_cons] at hc
    injection hc with h
    subst h
    rfl
  | case2 c rest skip hno hcond ih =>
    intro d hd
    by_cases hws : pySpace c = true
    · have heq : sub3go (c :: rest) true = sub3go rest true := by
        simp only [sub3go]
        rw [if_pos (by rw [hws]; rfl)]
      rw [heq] at hd
      exact ih d hd
    · have heq : sub3go (c :: rest) true = c :: sub3go rest false := by
        simp only [sub3go]
        rw [if_neg (by simpa using hws)]
      rw [heq] at hd
      have hcd : c = d := by simpa using hd
      subst hcd
      simpa using hws
  | case3 c rest skip hno hcond ih =>
    intro d hd
    by_cases hws : pySpace c = true
    · have heq : sub3go (c :: rest) true = sub3go rest true := by
        simp only [sub3go]
        rw [if_pos (by rw [hws]; rfl)]
      rw [heq] at hd
      exact ih d hd
    · have heq : sub3go (c :: rest) true = c :: sub3go rest false := by
        simp only [sub3go]
        rw [if_neg (by simpa using hws)]
      rw [heq] at hd
      have hcd : c = d := by simpa using hd
      subst hcd
      simpa using hws
  | case4 skip => intro c hc; cases hc

theorem sub4go_cons_ws {d : Char} (l : List Char) (hd : pySpace d = true) :
    sub4go (d :: l) false = ' ' :: sub4go l true := by
  simp only [sub4go]
  rw [if_pos hd]
  rfl

theorem sub4go_cons_not_ws {d : Char} (l : List Char) (r : Bool) (hd : pySpace d = false) :
    sub4go (d :: l) r = d :: sub4go l false := by
  simp only [sub4go]
  rw [if_neg (by simp [hd])]

theorem sub4go_ne_ws_shape {d : Char} (hd : pySpace d = false) :
    ∀ {l Y : List Char}, sub4go l false = d :: Y → ∃ l', l = d :: l' ∧ Y = sub4go l' false := by
  intro l Y h
  cases l with
  | nil => cases h
  | cons c l1 =>
    by_cases hws : pySpace c = true
    · rw [sub4go_cons_ws l1 hws] at h
      have : ' ' = d := by injection h
      rw [← this] at hd
      exact absurd hd (by decide)
    · rw [sub4go_cons_not_ws l1 false (by simpa using hws)] at h
      have h1 : c = d := by injection h
      have h2 : sub4go l1 false = Y := by injection h
      exact ⟨l1, by rw [h1], h2.symm⟩

theorem sub4go_true_head : ∀ (l : List Char) (s : Bool) (c : Char),
    (sub4go l true).head? = some c → pySpace c = false := by
  intro l s
  induction l, s using sub4go.induct with
  | case1 c rest hws ih =>
    intro d hd
    have heq : sub4go (c :: rest) true = sub4go rest true := by
      simp only [sub4go]
      rw [if_pos hws]
      rfl
    rw [heq] at hd
    exact ih d hd
  | case2 c rest inRun hws hir ih =>
    intro d hd
    have heq : sub4go (c :: rest) true = sub4go rest true := by
      simp only [sub4go]
      rw [if_pos hws]
      rfl
    rw [heq] at hd
    exact ih d hd
  | case3 c rest inRun hws ih =>
    intro d hd
    rw [sub4go_cons_not_ws rest true (by simpa using hws)] at hd
    have hcd : c = d := by simpa using hd
    subst hcd
    simpa using hws
  | case4 inRun => intro c hc; cases hc

/-! ## The pipeline output satisfies the normal-form predicates -/

theorem noBareBr_sub2 : ∀ l : List Char, noBareBr (sub2 l) = true := by
  intro l
  induction l using sub2.induct with
  | case1 rest2 ih =>
    show noBareBr ('<' :: 'b' :: 'r' :: '/' :: sub2 rest2) = true
    rw [noBareBr_brs]; exact ih
  | case2 rest hno ih =>
    simp only [sub2]
    rw [noBareBr_brs]; exact ih
  | case3 c l hno1 hno2 ih =>
    simp only [sub2]
    rw [noBareBr_cons, Bool.and_eq_true]
    refine ⟨?_, ih⟩
    by_cases hc : c = '<'
    · subst hc
      have hs : ∀ r, sub2 l ≠ 'b' :: 'r' :: r := by
        intro r hr
        obtain ⟨r', hr'⟩ := sub2_br_shape hr
        exact hno2 r' rfl hr'
      rw [brBad_lt_of_not_br _ hs]; rfl
    · rw [brBad_of_ne _ hc]; rfl
  | case4 => rfl

theorem noBareBr_sub3go : ∀ (l : List Char) (skip : Bool),
    noBareBr l = true → noBareBr (sub3go l skip) = true := by
  intro l skip
  induction l, skip using sub3go.induct with
  | case1 rest skip ih =>
    intro hB
    rw [noBareBr_brs, noBareBr_cons_ne _ (by decide)] at hB
    show noBareBr ('<' :: 'b' :: 'r' :: '/' :: '>' :: sub3go rest true) = true
    rw [noBareBr_brs, noBareBr_cons_ne _ (by decide)]
    exact ih hB
  | case2 c rest skip hno hcond ih =>
    intro hB
    simp only [sub3go]
    rw [if_pos hcond]
    exact ih (noBareBr_tail hB)
  | case3 c rest skip hno hcond ih =>
    intro hB
    simp only [sub3go]
    rw [if_neg hcond]
    rw [noBareBr_cons, Bool.and_eq_true]
    refine ⟨?_, ih (noBareBr_tail hB)⟩
    by_cases hc : c = '<'
    · subst hc
      by_cases hbr : ∃ r', rest = 'b' :: 'r' :: r'
      · obtain ⟨r', rfl⟩ := hbr
        have hbb : brBad ('<' :: 'b' :: 'r' :: r') = false := by
          rcases hq : brBad ('<' :: 'b' :: 'r' :: r') with _ | _
          · rfl
          · rw [noBareBr_cons, Bool.and_eq_true, hq] at hB
            exact absurd hB.1 (by simp)
        have hsl : ∃ r2, r' = '/' :: r2 := by
          by_contra hcon
          push_neg at hcon
          rw [brBad_lt_br r' hcon] at hbb
          cases hbb
        obtain ⟨r2, rfl⟩ := hsl
        rw [sub3go_cons_ne _ (by decide), sub3go_cons_ne _ (by decide),
          sub3go_cons_ne _ (by decide)]
        rw [brBad_brs]; rfl
      · push_neg at hbr
        rw [brBad_lt_of_not_br _ (fun r hr => by
          obtain ⟨r', hr'⟩ := sub3go_br_shape hr
          exact hbr r' hr')]
        rfl
    · rw [brBad_of_ne _ hc]; rfl
  | case4 skip => intro _; rfl

theorem noBrWs_sub3go : ∀ (l : List Char) (skip : Bool), noBrWs (sub3go l skip) = true := by
  intro l skip
  induction l, skip using sub3go.induct with
  | case1 rest skip ih =>
    show noBrWs ('<' :: 'b' :: 'r' :: '/' :: '>' :: sub3go rest true) = true
    rw [noBrWs_brs, Bool.and_eq_true]
    refine ⟨?_, ih⟩
    rw [brWsBad_br_head _ (fun c hc => sub3go_true_head rest true c hc)]
    rfl
  | case2 c rest skip hno hcond ih =>
    simp only [sub3go]
    rw [if_pos hcond]
    exact ih
  | case3 c rest skip hno hcond ih =>
    simp only [sub3go]
    rw [if_neg hcond]
    rw [noBrWs_cons, Bool.and_eq_true]
    refine ⟨?_, ih⟩
    by_cases hc : c = '<'
    · subst hc
      rw [brWsBad_lt_of_not _ (fun r hr => by
        obtain ⟨r', hr'⟩ := sub3go_brs4_shape hr
        exact hno r' rfl hr')]
      rfl
    · rw [brWsBad_of_ne _ hc]; rfl
  | case4 skip => rfl

theorem noBareBr_sub4go : ∀ (l : List Char) (inRun : Bool),
    noBareBr l = true → noBareBr (sub4go l inRun) = true := by
  intro l inRun
  induction l, inRun using sub4go.induct with
  | case1 c rest hws ih =>
    intro hB
    have heq : sub4go (c :: rest) true = sub4go rest true := by
      simp only [sub4go]; rw [if_pos hws]; rfl
    rw [heq]
    exact ih (noBareBr_tail hB)
  | case2 c rest inRun hws hir ih =>
    intro hB
    have heq : sub4go (c :: rest) inRun = ' ' :: sub4go rest true := by
      simp only [sub4go]; rw [if_pos hws, if_neg hir]
    rw [heq, noBareBr_cons_ne _ (by decide)]
    exact ih (noBareBr_tail hB)
  | case3 c rest inRun hws ih =>
    intro hB
    rw [sub4go_cons_not_ws rest inRun (by simpa using hws)]
    rw [noBareBr_cons, Bool.and_eq_true]
    refine ⟨?_, ih (noBareBr_tail hB)⟩
    by_cases hc : c = '<'
    · subst hc
      by_cases hbr : ∃ r', rest = 'b' :: 'r' :: r'
      · obtain ⟨r', rfl⟩ := hbr
        have hbb : brBad ('<' :: 'b' :: 'r' :: r') = false := by
          rcases hq : brBad ('<' :: 'b' :: 'r' :: r') with _ | _
          · rfl
          · rw [noBareBr_cons, Bool.and_eq_true, hq] at hB
            exact absurd hB.1 (by simp)
        have hsl : ∃ r2, r' = '/' :: r2 := by
          by_contra hcon
          push_neg at hcon
          rw [brBad_lt_br r' hcon] at hbb
          cases hbb
        obtain ⟨r2, rfl⟩ := hsl
        rw [sub4go_cons_not_ws _ _ (by decide), sub4go_cons_not_ws _ _ (by decide),
          sub4go_cons_not_ws _ _ (by decide)]
        rw [brBad_brs]; rfl
      · push_neg at hbr
        rw [brBad_lt_of_not_br _ (fun r hr => by
          obtain ⟨r', hr', _⟩ := sub4go_ne_ws_shape (by decide) hr
          obtain ⟨r'', hr'', _⟩ := sub4go_ne_ws_shape (by decide)
            (show sub4go r' false = 'r' :: r from by
              rw [hr'] at hr
              rw [sub4go_cons_not_ws _ _ (by decide)] at hr
              injection hr)
          exact hbr r'' (by rw [hr', hr'']))]
        rfl
    · rw [brBad_of_ne _ hc]; rfl
  | case4 inRun => intro _; rfl

theorem noBrWs_sub4go : ∀ (l : List Char) (inRun : Bool),
    noBrWs l = true → noBrWs (sub4go l inRun) = true := by
  intro l inRun
  induction l, inRun using sub4go.induct with
  | case1 c rest hws ih =>
    intro hW
    have heq : sub4go (c :: rest) true = sub4go rest true := by
      simp only [sub4go]; rw [if_pos hws]; rfl
    rw [heq]
    exact ih (noBrWs_tail hW)
  | case2 c rest inRun hws hir ih =>
    intro hW
    have heq : sub4go (c :: rest) inRun = ' ' :: sub4go rest true := by
      simp only [sub4go]; rw [if_pos hws, if_neg hir]
    rw [heq, noBrWs_cons_ne _ (by decide)]
    exact ih (noBrWs_tail hW)
  | case3 c rest inRun hws ih =>
    intro hW
    rw [sub4go_cons_not_ws rest inRun (by simpa using hws)]
    rw [noBrWs_cons, Bool.and_eq_true]
    refine ⟨?_, ih (noBrWs_tail hW)⟩
    by_cases hc : c = '<'
    · subst hc
      rcases hb : brWsBad ('<' :: sub4go rest false) with _ | _
      · rfl
      · obtain ⟨e, Z, heq, hwse⟩ := brWsBad_shape hb
        have h1 : sub4go rest false = 'b' :: 'r' :: '/' :: '>' :: e :: Z := by injection heq
        obtain ⟨r1, hr1, hY1⟩ := sub4go_ne_ws_shape (by decide) h1
        rw [hr1, sub4go_cons_not_ws _ _ (by decide)] at h1
        have h2 : sub4go r1 false = 'r' :: '/' :: '>' :: e :: Z := by injection h1
        obtain ⟨r2, hr2, hY2⟩ := sub4go_ne_ws_shape (by decide) h2
        rw [hr2, sub4go_cons_not_ws _ _ (by decide)] at h2
        have h3 : sub4go r2 false = '/' :: '>' :: e :: Z := by injection h2
        obtain ⟨r3, hr3, hY3⟩ := sub4go_ne_ws_shape (by decide) h3
        rw [hr3, sub4go_cons_not_ws _ _ (by decide)] at h3
        have h4 : sub4go r3 false = '>' :: e :: Z := by injection h3
        obtain ⟨r4, hr4, hY4⟩ := sub4go_ne_ws_shape (by decide) h4
        rw [hr4, sub4go_cons_not_ws _ _ (by decide)] at h4
        have h5 : sub4go r4 false = e :: Z := by injection h4
        -- the head of `sub4go r4 false` is whitespace, so the head of `r4` is too
        have hr4head : ∃ f r5, r4 = f :: r5 ∧ pySpace f = true := by
          cases r4 with
          | nil => cases h5
          | cons f r5 =>
            refine ⟨f, r5, rfl, ?_⟩
            rcases hf : pySpace f with _ | _
            · rw [sub4go_cons_not_ws _ _ hf] at h5
              have : f = e := by injection h5
              rw [this] at hf
              rw [hf] at hwse
              cases hwse
            · rfl
        obtain ⟨f, r5, rfl, hf⟩ := hr4head
        rw [hr1, hr2, hr3, hr4] at hW
        rw [noBrWs_cons, Bool.and_eq_true, brWsBad_br_cons, hf] at hW
        exact absurd hW.1 (by simp)
    · rw [brWsBad_of_ne _ hc]; rfl
  | case4 inRun => intro _; rfl

theorem wsNormal_sub4go : ∀ (l : List Char) (inRun : Bool), wsNormal (sub4go l inRun) = true := by
  intro l inRun
  induction l, inRun using sub4go.induct with
  | case1 c rest hws ih =>
    have heq : sub4go (c :: rest) true = sub4go rest true := by
      simp only [sub4go]; rw [if_pos hws]; rfl
    rw [heq]; exact ih
  | case2 c rest inRun hws hir ih =>
    have heq : sub4go (c :: rest) inRun = ' ' :: sub4go rest true := by
      simp only [sub4go]; rw [if_pos hws, if_neg hir]
    rw [heq, wsNormal_cons, Bool.and_eq_true]
    refine ⟨?_, ih⟩
    rw [wsBad_space_head _ (fun c hc => sub4go_true_head rest true c hc)]
    rfl
  | case3 c rest inRun hws ih =>
    rw [sub4go_cons_not_ws rest inRun (by simpa using hws)]
    rw [wsNormal_cons, Bool.and_eq_true]
    refine ⟨?_, ih⟩
    rw [wsBad_of_not_space _ (by simpa using hws)]
    rfl
  | case4 inRun => rfl

/-! ## The predicates survive the final strip -/

theorem mem_takeWhile_ws {p : Char → Bool} :
    ∀ (l : List Char) (c : Char), c ∈ l.takeWhile p → p c = true := by
  intro l
  induction l with
  | nil => intro c hc; cases hc
  | cons a t ih =>
    intro c hc
    rw [List.takeWhile_cons] at hc
    rcases hp : p a with _ | _
    · rw [hp, if_neg (by decide)] at hc; cases hc
    · rw [hp, if_pos rfl] at hc
      simp only [List.mem_cons] at hc
      cases hc with
      | inl h => rw [h]; exact hp
      | inr h => exact ih c h

theorem strip_decomp (l : List Char) :
    ∃ s, l.dropWhile pySpace = pyStrip l ++ s ∧ ∀ c ∈ s, pySpace c = true := by
  refine ⟨((l.dropWhile pySpace).reverse.takeWhile pySpace).reverse, ?_, ?_⟩
  · unfold pyStrip
    conv_lhs => rw [← (l.dropWhile pySpace).reverse_reverse,
      ← List.takeWhile_append_dropWhile (p := pySpace) (l := (l.dropWhile pySpace).reverse)]
    rw [List.reverse_append]
  · intro c hc
    rw [List.mem_reverse] at hc
    exact mem_takeWhile_ws _ c hc

theorem head?_dropWhile_not {p : Char → Bool} :
    ∀ (l : List Char) (c : Char), (l.dropWhile p).head? = some c → p c = false := by
  intro l
  induction l with
  | nil => intro c hc; cases hc
  | cons a t ih =>
    intro c hc
    rw [List.dropWhile_cons] at hc
    rcases hp : p a with _ | _
    · rw [hp, if_neg (by decide)] at hc
      simp only [List.head?_cons] at hc
      injection hc with h
      subst h
      exact hp
    · rw [hp, if_pos rfl] at hc
      exact ih c hc

theorem noBareBr_pyStrip {l : List Char} (h : noBareBr l = true) :
    noBareBr (pyStrip l) = true := by
  obtain ⟨s, hdec, hs⟩ := strip_decomp l
  have h1 : noBareBr (l.dropWhile pySpace) = true := noBareBr_dropWhile _ h
  rw [hdec] at h1
  exact noBareBr_of_append hs h1

theorem noBrWs_pyStrip {l : List Char} (h : noBrWs l = true) :
    noBrWs (pyStrip l) = true := by
  obtain ⟨s, hdec, hs⟩ := strip_decomp l
  have h1 : noBrWs (l.dropWhile pySpace) = true := noBrWs_dropWhile _ h
  rw [hdec] at h1
  exact noBrWs_of_append h1

theorem wsNormal_pyStrip {l : List Char} (h : wsNormal l = true) :
    wsNormal (pyStrip l) = true := by
  obtain ⟨s, hdec, hs⟩ := strip_decomp l
  have h1 : wsNormal (l.dropWhile pySpace) = true := wsNormal_dropWhile _ h
  rw [hdec] at h1
  exact wsNormal_of_append h1

theorem noEdgeWs_of (l : List Char) (h1 : ∀ c, l.head? = some c → pySpace c = false)
    (h2 : ∀ c, l.getLast? = some c → pySpace c = false) : noEdgeWs l = true := by
  unfold noEdgeWs
  rw [Bool.and_eq_true]
  constructor
  · cases l with
    | nil => rfl
    | cons c t =>
      have := h1 c rfl
      simpa using this
  · rcases hg : l.getLast? with _ | c
    · rfl
    · have := h2 c hg
      simpa using this

theorem noEdgeWs_pyStrip (l : List Char) : noEdgeWs (pyStrip l) = true := by
  obtain ⟨s, hdec, hs⟩ := strip_decomp l
  refine noEdgeWs_of _ ?_ ?_
  · intro c hc
    rcases hp : pyStrip l with _ | ⟨a, t⟩
    · rw [hp] at hc; cases hc
    · rw [hp] at hc
      simp only [List.head?_cons] at hc
      injection hc with h
      rw [hp] at hdec
      have hhd : (l.dropWhile pySpace).head? = some a := by
        rw [hdec]; rfl
      rw [← h]
      exact head?_dropWhile_not l a hhd
  · intro c hc
    unfold pyStrip at hc
    rw [List.getLast?_reverse] at hc
    exact head?_dropWhile_not _ c hc

/-! ## Idempotence of the sanitizer -/

theorem limpiar_normal_id {m : List Char} (hB : noBareBr m = true) (hW : noBrWs m = true)
    (hN : wsNormal m = true) (hE : noEdgeWs m = true) :
    limpiar_html_para_reportlab m = m := by
  by_cases hm0 : m = []
  · rw [hm0]; rfl
  · unfold limpiar_html_para_reportlab
    rw [if_neg hm0, sub1_id hB, sub2_id hB, sub3_id hW, sub4_id hN, sub5_id hW,
      noEdgeWs_strip_id hE]

/-- C2: when the monthly-row query returns an empty collection, report
generation raises the no-data error before any output artifact is created —
the result is the `sinDatos` error and the effect log is empty (no
directory is created and no file is written). -/
theorem C2_sin_datos_aborta (A : Analizadores) (p : Parcela)
    (indices : List IndiceMensual) (output_path : Option (List Char))
    (ruta_por_defecto : List Char) (h : indices = []) :
    generar_informe_completo A (some p) indices output_path ruta_por_defecto =
      ([], .error .sinDatos) := by
  subst h
  rfl

/-- Witness for C2 at a concrete request. -/
theorem C2_sin_datos_aborta_witness :
    generar_informe_completo analizadoresDemo (some parcelaDemo) [] none (str "informe.pdf") =
      ([], .error .sinDatos) :=
  C2_sin_datos_aborta analizadoresDemo parcelaDemo [] none (str "informe.pdf") rfl

/-- C6: the executive summary's overall score is the arithmetic mean of the
NDVI and NDMI scores only — the whole summary section is unchanged by an
arbitrary replacement of the SAVI analysis — and on the sample bundle with
NDVI score 8, NDMI score 6 and a present SAVI analysis the overall score is
7. -/
theorem C6_puntuacion_general (nd nm : Analisis) (s1 s2 : Option Analisis)
    (t : Tendencias) (recs : List Recomendacion) :
    promedio_general ⟨nd, nm, s1, t, recs⟩ =
        (nd.puntuacion.getD 0 + nm.puntuacion.getD 0) / 2 ∧
    crear_resumen_ejecutivo ⟨nd, nm, s1, t, recs⟩ =
        crear_resumen_ejecutivo ⟨nd, nm, s2, t, recs⟩ ∧
    analisisCompletoDemo.savi.isSome = true ∧
    promedio_general analisisCompletoDemo = 7 := by
  refine ⟨rfl, rfl, rfl, ?_⟩
  norm_num [promedio_general, analisisCompletoDemo, analisisDemo]

/-- C7 counterexample: a present-zero NDVI value is rendered as the
`'N/D'` marker, so the cell does not show the no-data marker exactly when
the metric is absent. -/
theorem C7_contraejemplo :
    registroNdviCero.ndvi = some 0 ∧
    ¬ ((celda_opcional registroNdviCero.ndvi 3 = Celda.nd) ↔
        registroNdviCero.ndvi = none) ∧
    fila_datos registroNdviCero =
      [Celda.texto (str "2023-01"), Celda.nd, Celda.nd, Celda.nd,
       Celda.num 25 1, Celda.nd] := by
  refine ⟨rfl, ?_, ?_⟩
  · decide
  · rfl

/-- C7 amended: the table has one row per monthly record after the header,
and a cell shows the `'N/D'` marker exactly when the metric is absent or
zero (Python-falsy), and the formatted value exactly when it is present and
non-zero. -/
theorem C7_tabla_enmendada (datos : List Registro) :
    crear_tabla_datos datos =
      [Bloque.titulo (str "📋 Datos Mensuales Detallados"), Bloque.espacio (1/2),
       Bloque.tablaDatos (encabezado :: datos.map fila_datos)] ∧
    (encabezado :: datos.map fila_datos).length = datos.length + 1 ∧
    (∀ (v : Option ℚ) (d : Nat),
      celda_opcional v d =
        if v = none ∨ v = some 0 then Celda.nd else Celda.num (v.getD 0) d) := by
  refine ⟨rfl, by simp, ?_⟩
  intro v d
  cases v with
  | none => rfl
  | some q =>
    by_cases hq : q = 0
    · subst hq
      rw [if_pos (Or.inr rfl)]
      rfl
    · rw [if_neg (by simp [hq])]
      unfold celda_opcional truthy
      rw [if_pos (by simpa using hq)]

/-- C4 counterexample: on a series with a present-zero and a present-one
SAVI value, the chart renders successfully and its SAVI bar is `1` — the
mean over the truthy records only — while the mean over all records with a
present SAVI value is `1/2`. -/
theorem C4_contraejemplo :
    grafico_comparativo datosSaviMixto = .ok (1/2, 1/4, 1) ∧
    savi_bar_spec datosSaviMixto = 1/2 ∧ (1 : ℚ) ≠ 1/2 := by
  refine ⟨?_, ?_, by norm_num⟩
  · unfold grafico_comparativo ndvi_prom ndmi_prom savi_prom
    norm_num [datosSaviMixto, registroSaviCero, registroSaviUno, truthy]
  · unfold savi_bar_spec
    norm_num [datosSaviMixto, registroSaviCero, registroSaviUno]

/-- C4 amended: whenever the comparative chart renders (non-empty series,
no `None` NDVI/NDMI value to crash Python's `sum`), its SAVI bar equals the
arithmetic mean of the SAVI values over exactly the records whose SAVI is
present and non-zero (Python-truthy), and `0` when there is no such
record. -/
theorem C4_barra_savi_enmendada (datos : List Registro) (a b s : ℚ)
    (h : grafico_comparativo datos = .ok (a, b, s)) :
    s = savi_bar_amended datos := by
  unfold grafico_comparativo at h
  split at h
  · cases h
  · split at h
    · cases h
    · have hs : s = savi_prom datos := by
        injection h with h'
        simp only [Prod.mk.injEq] at h'
        exact h'.2.2.symm
      rw [hs]
      unfold savi_prom savi_bar_amended
      rcases hf : datos.filter (fun d => truthy d.savi) with _ | ⟨x, xs⟩ <;> rw [hf]
      · simp
      · have hmax : max 1 (x :: xs).length = (x :: xs).length :=
          Nat.max_eq_right (Nat.succ_le_succ (Nat.zero_le _))
        rw [hmax]
        simp

/-- Witness for C4 at a concrete series. -/
theorem C4_barra_savi_enmendada_witness : (1 : ℚ) = savi_bar_amended datosSaviMixto :=
  C4_barra_savi_enmendada datosSaviMixto (1/2) (1/4) 1
    (by
      unfold grafico_comparativo ndvi_prom ndmi_prom savi_prom
      norm_num [datosSaviMixto, registroSaviCero, registroSaviUno, truthy])

/-! ## Locating the SAVI section in the assembled story -/

theorem esTituloSavi_parrafo (s : List Char) : esTituloSavi (Bloque.parrafo s) = false := rfl

theorem esTituloSavi_alerta (s : List Char) : esTituloSavi (Bloque.alerta s) = false := rfl

theorem esTituloSavi_espacio (q : ℚ) : esTituloSavi (Bloque.espacio q) = false := rfl

theorem esTituloSavi_salto : esTituloSavi Bloque.salto = false := rfl

theorem esTituloSavi_imagen (s : List Char) : esTituloSavi (Bloque.imagen s) = false := rfl

theorem esTituloSavi_portada (p : Parcela) : esTituloSavi (Bloque.portada p) = false := rfl

theorem esTituloSavi_info (p : Parcela) : esTituloSavi (Bloque.infoParcela p) = false := rfl

theorem esTituloSavi_resumen (a : ℚ) (b : List Char) (c d : ℚ) (e : List Char) (f g : ℚ)
    (h : List Char) (i : ℚ) (j : Nat) :
    esTituloSavi (Bloque.resumenEjecutivo a b c d e f g h i j) = false := rfl

theorem esTituloSavi_estadoNdvi (a b : List Char) (c : ℚ) (d : Option ℚ) (e : ℚ) :
    esTituloSavi (Bloque.estadoNdvi a b c d e) = false := rfl

theorem esTituloSavi_estadoNdmi (a b : List Char) (c : ℚ) (d : Option ℚ) (e : List Char) :
    esTituloSavi (Bloque.estadoNdmi a b c d e) = false := rfl

theorem esTituloSavi_estadoSavi (a b : List Char) (c d : ℚ) :
    esTituloSavi (Bloque.estadoSavi a b c d) = false := rfl

theorem esTituloSavi_tendenciaLineal (t : TendenciaLineal) :
    esTituloSavi (Bloque.tendenciaLineal t) = false := rfl

theorem esTituloSavi_tituloPrioridad (s : List Char) :
    esTituloSavi (Bloque.tituloPrioridad s) = false := rfl

theorem esTituloSavi_recomendacion (n : Nat) (r : Recomendacion) (a : List (List Char)) :
    esTituloSavi (Bloque.recomendacion n r a) = false := rfl

theorem esTituloSavi_tablaDatos (f : List (List Celda)) :
    esTituloSavi (Bloque.tablaDatos f) = false := rfl

theorem esTituloSavi_titulo_resumen :
    esTituloSavi (Bloque.titulo (str "📊 Resumen Ejecutivo")) = false := by decide

theorem esTituloSavi_titulo_info :
    esTituloSavi (Bloque.titulo (str "📍 Información de la Parcela")) = false := by decide

theorem esTituloSavi_titulo_ndvi :
    esTituloSavi (Bloque.titulo (str "🌱 Análisis NDVI - Salud Vegetal")) = false := by decide

theorem esTituloSavi_titulo_ndmi :
    esTituloSavi (Bloque.titulo (str "💧 Análisis NDMI - Contenido de Humedad")) = false := by
  decide

theorem esTituloSavi_titulo_tendencias :
    esTituloSavi (Bloque.titulo (str "📈 Análisis de Tendencias Temporales")) = false := by
  decide

theorem esTituloSavi_titulo_recs :
    esTituloSavi (Bloque.titulo (str "💡 Recomendaciones Agronómicas")) = false := by decide

theorem esTituloSavi_titulo_tabla :
    esTituloSavi (Bloque.titulo (str "📋 Datos Mensuales Detallados")) = false := by decide

theorem esTituloSavi_titulo_savi : esTituloSavi titulo_savi = true := by decide

theorem any_savi_alertas (als : List Alerta) :
    (bloques_alertas als).any esTituloSavi = false := by
  unfold bloques_alertas
  split
  · rfl
  · simp only [List.any_cons, esTituloSavi_espacio, esTituloSavi_parrafo, Bool.false_or,
      List.any_eq_false]
    intro x hx
    have hx' := List.take_subset 3 _ (by simpa using hx)
    obtain ⟨a, _, rfl⟩ := List.mem_map.mp hx'
    simp [esTituloSavi_alerta]

theorem any_savi_ndvi (a : Analisis) : (crear_seccion_ndvi a).any esTituloSavi = false := by
  unfold crear_seccion_ndvi
  simp [esTituloSavi_titulo_ndvi, esTituloSavi_espacio, esTituloSavi_estadoNdvi,
    esTituloSavi_parrafo, any_savi_alertas]

theorem any_savi_ndmi (a : Analisis) : (crear_seccion_ndmi a).any esTituloSavi = false := by
  unfold crear_seccion_ndmi
  simp [esTituloSavi_titulo_ndmi, esTituloSavi_espacio, esTituloSavi_estadoNdmi,
    esTituloSavi_parrafo, any_savi_alertas]

theorem any_savi_seccion_savi (a : Analisis) :
    (crear_seccion_savi a).any esTituloSavi = true := by
  unfold crear_seccion_savi
  simp only [List.any_cons]
  rw [show esTituloSavi (Bloque.titulo (str "🌾 Análisis SAVI - Cobertura Vegetal")) = true from
    esTituloSavi_titulo_savi]
  rfl

theorem any_savi_resumen (a : AnalisisCompleto) :
    (crear_resumen_ejecutivo a).any esTituloSavi = false := by
  unfold crear_resumen_ejecutivo
  simp [esTituloSavi_titulo_resumen, esTituloSavi_espacio, esTituloSavi_resumen]

theorem any_savi_info (p : Parcela) : (crear_info_parcela p).any esTituloSavi = false := by
  unfold crear_info_parcela
  simp [esTituloSavi_titulo_info, esTituloSavi_info]

theorem any_savi_portada (p : Parcela) : (crear_portada p).any esTituloSavi = false := by
  unfold crear_portada
  simp [esTituloSavi_portada]

theorem any_savi_tendencias (t : Tendencias) :
    (crear_seccion_tendencias t).any esTituloSavi = false := by
  unfold crear_seccion_tendencias
  split <;> rcases t.tendencia_lineal with _ | tl <;>
    simp [esTituloSavi_titulo_tendencias, esTituloSavi_espacio, esTituloSavi_imagen,
      esTituloSavi_parrafo, esTituloSavi_tendenciaLineal]

theorem any_savi_tabla (datos : List Registro) :
    (crear_tabla_datos datos).any esTituloSavi = false := by
  unfold crear_tabla_datos
  simp [esTituloSavi_titulo_tabla, esTituloSavi_espacio, esTituloSavi_tablaDatos]

theorem any_savi_bloques_recs : ∀ (rs : List Recomendacion) (n : Nat),
    (bloques_recs n rs).any esTituloSavi = false := by
  intro rs
  induction rs with
  | nil => intro n; rfl
  | cons r rs ih =>
    intro n
    simp [bloques_recs, esTituloSavi_recomendacion, esTituloSavi_espacio, ih]

theorem any_savi_grupo (et : List Char) (n : Nat) (grupo : List Recomendacion) :
    (bloques_grupo et n grupo).any esTituloSavi = false := by
  unfold bloques_grupo
  split
  · rfl
  · simp [esTituloSavi_tituloPrioridad, esTituloSavi_espacio, any_savi_bloques_recs]

theorem any_savi_recs {rs : List Recomendacion} {bs : List Bloque}
    (h : crear_seccion_recomendaciones rs = .ok bs) : bs.any esTituloSavi = false := by
  unfold crear_seccion_recomendaciones at h
  cases hg : agrupar_por_prioridad ⟨[], [], []⟩ rs with
  | error e => rw [hg] at h; cases h
  | ok g =>
    rw [hg] at h
    cases h
    simp [esTituloSavi_titulo_recs, esTituloSavi_espacio, esTituloSavi_parrafo,
      any_savi_grupo]

theorem except_bind_ok {α β : Type} (a : α) (f : α → Except Unit β) :
    (Except.ok a >>= f) = f a := rfl

theorem except_map_pure {α β : Type} (f : α → β) (a : α) :
    (pure a : Except Unit α).map f = .ok (f a) := rfl

/-- C3 counterexample: a series whose only record has SAVI present with the
value `0` — the SAVI analyzer is skipped (`any(d.get('savi'))` is falsy),
the bundle's SAVI result is `None`, and the assembled document has no SAVI
section, although a record has a present SAVI value. -/
theorem C3_contraejemplo :
    datosSaviCero.any (fun d => d.savi.isSome) = true ∧
    (ejecutar_analisis analizadoresDemo datosSaviCero).savi = none ∧
    (construir_story parcelaDemo (ejecutar_analisis analizadoresDemo datosSaviCero)
        datosSaviCero).map contiene_seccion_savi = .ok false := by
  refine ⟨by decide, by decide, by rfl⟩

/-- C3 amended: the composite bundle carries a SAVI analysis if and only if
some record has a Python-truthy (present and non-zero) SAVI value, and any
successfully assembled document contains the SAVI section exactly in that
case (an assembly error maps to an error on both sides). -/
theorem C3_seccion_savi_enmendada (A : Analizadores) (p : Parcela) (datos : List Registro) :
    (ejecutar_analisis A datos).savi.isSome = datos.any (fun d => truthy d.savi) ∧
    (construir_story p (ejecutar_analisis A datos) datos).map contiene_seccion_savi =
      (construir_story p (ejecutar_analisis A datos) datos).map
        (fun _ => datos.any (fun d => truthy d.savi)) := by
  constructor
  · rcases hany : datos.any (fun d => truthy d.savi) with _ | _ <;>
      simp [ejecutar_analisis, hany]
  · unfold construir_story
    cases hr : crear_seccion_recomendaciones (ejecutar_analisis A datos).recomendaciones with
    | error e => rfl
    | ok recs =>
      simp only [except_bind_ok, except_map_pure]
      refine congrArg Except.ok ?_
      unfold contiene_seccion_savi
      simp only [List.any_append, any_savi_portada, any_savi_resumen, any_savi_info,
        any_savi_ndvi, any_savi_ndmi, any_savi_tendencias, any_savi_tabla,
        any_savi_recs hr, List.any_cons, List.any_nil, esTituloSavi_salto,
        esTituloSavi_espacio, Bool.or_false, Bool.false_or]
      rcases hany : datos.any (fun d => truthy d.savi) with _ | _
      · have hsavi : (ejecutar_analisis A datos).savi = none := by
          simp [ejecutar_analisis, hany]
        rw [hsavi]
        rfl
      · have hsavi : (ejecutar_analisis A datos).savi = some (A.savi datos) := by
          simp [ejecutar_analisis, hany]
        rw [hsavi]
        simp [List.any_append, any_savi_seccion_savi]

/-! ## Per-index sections (C8) -/

theorem esAlerta_alerta (s : List Char) : esAlerta (Bloque.alerta s) = true := rfl

theorem esAlerta_espacio (q : ℚ) : esAlerta (Bloque.espacio q) = false := rfl

theorem esAlerta_parrafo (s : List Char) : esAlerta (Bloque.parrafo s) = false := rfl

theorem esAlerta_titulo (s : List Char) : esAlerta (Bloque.titulo s) = false := rfl

theorem esAlerta_estadoNdvi (a b : List Char) (c : ℚ) (d : Option ℚ) (e : ℚ) :
    esAlerta (Bloque.estadoNdvi a b c d e) = false := rfl

theorem esAlerta_estadoNdmi (a b : List Char) (c : ℚ) (d : Option ℚ) (e : List Char) :
    esAlerta (Bloque.estadoNdmi a b c d e) = false := rfl

theorem esAlerta_estadoSavi (a b : List Char) (c d : ℚ) :
    esAlerta (Bloque.estadoSavi a b c d) = false := rfl

theorem conteo_alertas (als : List Alerta) :
    (bloques_alertas als).countP esAlerta = min 3 als.length := by
  unfold bloques_alertas
  split
  · rename_i he
    have h0 : als = [] := by
      cases als with
      | nil => rfl
      | cons a l => simp at he
    rw [h0]
    rfl
  · simp only [List.countP_cons, esAlerta_espacio, esAlerta_parrafo]
    rw [List.countP_map]
    rw [List.countP_eq_length.mpr (by intro a _; rfl)]
    simp [List.length_take]

theorem C8_contraejemplo :
    analisisDemo.interpretacion_simple = str "SIMPLE" ∧
    Bloque.parrafo (limpiar analisisDemo.interpretacion_simple) ∉
      crear_seccion_savi analisisDemo := by
  exact ⟨rfl, by decide⟩

/-- C8 amended: the NDVI and NDMI section builders render the state block
(label, icon, rounded statistic, score and index-specific metric), both the
technical and the plain-language interpretation passed through the
sanitizer, and exactly `min 3` of the alerts; the SAVI section builder
renders its state block and only the sanitized technical interpretation,
with no alert blocks at all. -/
theorem C8_secciones_enmendadas (a : Analisis) :
    Bloque.parrafo (limpiar a.interpretacion_tecnica) ∈ crear_seccion_ndvi a ∧
    Bloque.parrafo (limpiar a.interpretacion_simple) ∈ crear_seccion_ndvi a ∧
    Bloque.estadoNdvi a.estado.icono a.estado.etiqueta a.estadisticas.promedio a.puntuacion
        a.cobertura_estimada ∈ crear_seccion_ndvi a ∧
    (crear_seccion_ndvi a).countP esAlerta = min 3 a.alertas.length ∧
    Bloque.parrafo (limpiar a.interpretacion_tecnica) ∈ crear_seccion_ndmi a ∧
    Bloque.parrafo (limpiar a.interpretacion_simple) ∈ crear_seccion_ndmi a ∧
    Bloque.estadoNdmi a.estado.icono a.estado.etiqueta a.estadisticas.promedio a.puntuacion
        a.riesgo_hidrico ∈ crear_seccion_ndmi a ∧
    (crear_seccion_ndmi a).countP esAlerta = min 3 a.alertas.length ∧
    Bloque.parrafo (limpiar a.interpretacion_tecnica) ∈ crear_seccion_savi a ∧
    Bloque.estadoSavi a.estado.icono a.estado.etiqueta a.estadisticas.promedio
        a.exposicion_suelo ∈ crear_seccion_savi a ∧
    (crear_seccion_savi a).countP esAlerta = 0 := by
  refine ⟨?_, ?_, ?_, ?_, ?_, ?_, ?_, ?_, ?_, ?_, ?_⟩
  · simp [crear_seccion_ndvi]
  · simp [crear_seccion_ndvi]
  · simp [crear_seccion_ndvi]
  · unfold crear_seccion_ndvi
    rw [List.countP_append, conteo_alertas]
    simp [List.countP_cons, esAlerta_titulo, esAlerta_espacio, esAlerta_estadoNdvi,
      esAlerta_parrafo]
  · simp [crear_seccion_ndmi]
  · simp [crear_seccion_ndmi]
  · simp [crear_seccion_ndmi]
  · unfold crear_seccion_ndmi
    rw [List.countP_append, conteo_alertas]
    simp [List.countP_cons, esAlerta_titulo, esAlerta_espacio, esAlerta_estadoNdmi,
      esAlerta_parrafo]
  · simp [crear_seccion_savi]
  · simp [crear_seccion_savi]
  · unfold crear_seccion_savi
    simp [List.countP_cons, esAlerta_titulo, esAlerta_espacio, esAlerta_estadoSavi,
      esAlerta_parrafo]

/-! ## Recommendations section (C5 and C10) -/

theorem agrupar_ok :
    ∀ (rs : List Recomendacion) (g : Grupos),
      (∀ r ∈ rs, prioridad_efectiva r = str "alta" ∨ prioridad_efectiva r = str "media" ∨
        prioridad_efectiva r = str "baja") →
      agrupar_por_prioridad g rs = .ok
        { alta := g.alta ++ rs.filter (fun r => prioridad_efectiva r = str "alta"),
          media := g.media ++ rs.filter (fun r => prioridad_efectiva r = str "media"),
          baja := g.baja ++ rs.filter (fun r => prioridad_efectiva r = str "baja") } := by
  intro rs
  induction rs with
  | nil =>
    intro g h
    simp [agrupar_por_prioridad]
  | cons r rs ih =>
    intro g h
    have hr := h r (by simp)
    have hrest : ∀ x ∈ rs, prioridad_efectiva x = str "alta" ∨
        prioridad_efectiva x = str "media" ∨ prioridad_efectiva x = str "baja" :=
      fun x hx => h x (by simp [hx])
    unfold agrupar_por_prioridad
    rcases hr with hp | hp | hp
    · have e1 : decide (prioridad_efectiva r = str "alta") = true := by rw [hp]; decide
      have e2 : decide (prioridad_efectiva r = str "media") = false := by rw [hp]; decide
      have e3 : decide (prioridad_efectiva r = str "baja") = false := by rw [hp]; decide
      rw [if_pos hp, ih _ hrest]
      congr 1 <;> simp [List.filter_cons, e1, e2, e3, List.append_assoc]
    · have e1 : decide (prioridad_efectiva r = str "alta") = false := by rw [hp]; decide
      have e2 : decide (prioridad_efectiva r = str "media") = true := by rw [hp]; decide
      have e3 : decide (prioridad_efectiva r = str "baja") = false := by rw [hp]; decide
      rw [if_neg (by rw [hp]; decide), if_pos hp, ih _ hrest]
      congr 1 <;> simp [List.filter_cons, e1, e2, e3, List.append_assoc]
    · have e1 : decide (prioridad_efectiva r = str "alta") = false := by rw [hp]; decide
      have e2 : decide (prioridad_efectiva r = str "media") = false := by rw [hp]; decide
      have e3 : decide (prioridad_efectiva r = str "baja") = true := by rw [hp]; decide
      rw [if_neg (by rw [hp]; decide), if_neg (by rw [hp]; decide), if_pos hp, ih _ hrest]
      congr 1 <;> simp [List.filter_cons, e1, e2, e3, List.append_assoc]

theorem numeradas_append (a b : List Bloque) :
    numeradas (a ++ b) = numeradas a ++ numeradas b :=
  List.filterMap_append a b _

theorem numeradas_bloques_recs : ∀ (rs : List Recomendacion) (n : Nat),
    numeradas (bloques_recs n rs) = (List.range' n rs.length).zip rs := by
  intro rs
  induction rs with
  | nil => intro n; rfl
  | cons r rs ih =>
    intro n
    have hstep : numeradas (bloques_recs n (r :: rs)) =
        (n, r) :: numeradas (bloques_recs (n + 1) rs) := rfl
    rw [hstep, ih, List.length_cons, List.range'_succ]
    rfl

theorem numeradas_grupo (et : List Char) (n : Nat) (grupo : List Recomendacion) :
    numeradas (bloques_grupo et n grupo) = (List.range' n grupo.length).zip grupo := by
  unfold bloques_grupo
  split
  · rename_i he
    have h0 : grupo = [] := by
      cases grupo with
      | nil => rfl
      | cons a l => simp at he
    rw [h0]
    rfl
  · have hstep : numeradas (Bloque.tituloPrioridad et :: Bloque.espacio (3/10) ::
        bloques_recs n grupo) = numeradas (bloques_recs n grupo) := rfl
    rw [hstep]
    exact numeradas_bloques_recs grupo n

theorem particion_tres {rs : List Recomendacion}
    (h : ∀ r ∈ rs, prioridad_efectiva r = str "alta" ∨ prioridad_efectiva r = str "media" ∨
      prioridad_efectiva r = str "baja") :
    (rs.filter (fun r => prioridad_efectiva r = str "alta")).length +
    (rs.filter (fun r => prioridad_efectiva r = str "media")).length +
    (rs.filter (fun r => prioridad_efectiva r = str "baja")).length = rs.length := by
  induction rs with
  | nil => rfl
  | cons r rs ih =>
    have hr := h r (by simp)
    have ih' := ih (fun x hx => h x (by simp [hx]))
    rcases hr with hp | hp | hp
    · have e1 : decide (prioridad_efectiva r = str "alta") = true := by rw [hp]; decide
      have e2 : decide (prioridad_efectiva r = str "media") = false := by rw [hp]; decide
      have e3 : decide (prioridad_efectiva r = str "baja") = false := by rw [hp]; decide
      simp only [List.filter_cons, e1, e2, e3, Bool.false_eq_true, if_true, if_false,
        reduceIte, List.length_cons]
      omega
    · have e1 : decide (prioridad_efectiva r = str "alta") = false := by rw [hp]; decide
      have e2 : decide (prioridad_efectiva r = str "media") = true := by rw [hp]; decide
      have e3 : decide (prioridad_efectiva r = str "baja") = false := by rw [hp]; decide
      simp only [List.filter_cons, e1, e2, e3, Bool.false_eq_true, if_true, if_false,
        reduceIte, List.length_cons]
      omega
    · have e1 : decide (prioridad_efectiva r = str "alta") = false := by rw [hp]; decide
      have e2 : decide (prioridad_efectiva r = str "media") = false := by rw [hp]; decide
      have e3 : decide (prioridad_efectiva r = str "baja") = true := by rw [hp]; decide
      simp only [List.filter_cons, e1, e2, e3, Bool.false_eq_true, if_true, if_false,
        reduceIte, List.length_cons]
      omega

theorem numeradas_prefijo (t : List Char) (q1 : ℚ) (p : List Char) (q2 : ℚ) :
    numeradas [Bloque.titulo t, Bloque.espacio q1, Bloque.parrafo p, Bloque.espacio q2] = [] :=
  rfl

theorem seccion_recomendaciones_ok {recs : List Recomendacion}
    (h' : ∀ r ∈ recs, prioridad_efectiva r = str "alta" ∨
      prioridad_efectiva r = str "media" ∨ prioridad_efectiva r = str "baja") :
    ∃ bs, crear_seccion_recomendaciones recs = .ok bs ∧
      numeradas bs =
        (List.range' 1 (recs.filter (fun r => prioridad_efectiva r = str "alta")).length).zip
          (recs.filter (fun r => prioridad_efectiva r = str "alta")) ++
        (List.range' (1 + (recs.filter (fun r => prioridad_efectiva r = str "alta")).length)
          (recs.filter (fun r => prioridad_efectiva r = str "media")).length).zip
          (recs.filter (fun r => prioridad_efectiva r = str "media")) ++
        (List.range' (1 + (recs.filter (fun r => prioridad_efectiva r = str "alta")).length +
            (recs.filter (fun r => prioridad_efectiva r = str "media")).length)
          (recs.filter (fun r => prioridad_efectiva r = str "baja")).length).zip
          (recs.filter (fun r => prioridad_efectiva r = str "baja")) := by
  have hg := agrupar_ok recs ⟨[], [], []⟩ h'
  unfold crear_seccion_recomendaciones
  rw [hg, except_bind_ok]
  exact ⟨_, rfl,
    by simp only [numeradas_append, numeradas_prefijo, numeradas_grupo, List.nil_append]⟩

/-- C5: under the claim's hypothesis that every priority is alta, media or
baja, the recommendations section builds without error; the rendered
numbered sequence is exactly the alta entries, then the media entries,
then the baja entries, each group in its original relative order (the
`filter` keeps the original order); and the global numbering is
`1, 2, …, n`, strictly increasing and without duplicates. -/
theorem C5_recomendaciones_ordenadas (recs : List Recomendacion)
    (h : ∀ r ∈ recs, r.prioridad = some (str "alta") ∨ r.prioridad = some (str "media") ∨
      r.prioridad = some (str "baja")) :
    ∃ bs, crear_seccion_recomendaciones recs = .ok bs ∧
      (numeradas bs).map Prod.snd =
        recs.filter (fun r => prioridad_efectiva r = str "alta") ++
        recs.filter (fun r => prioridad_efectiva r = str "media") ++
        recs.filter (fun r => prioridad_efectiva r = str "baja") ∧
      (numeradas bs).map Prod.fst = List.range' 1 recs.length ∧
      List.Chain' (· < ·) ((numeradas bs).map Prod.fst) ∧
      ((numeradas bs).map Prod.fst).Nodup := by
  have h' : ∀ r ∈ recs, prioridad_efectiva r = str "alta" ∨
      prioridad_efectiva r = str "media" ∨ prioridad_efectiva r = str "baja" := by
    intro r hr
    rcases h r hr with hp | hp | hp <;> simp [prioridad_efectiva, hp]
  obtain ⟨bs, hbs, hnum⟩ := seccion_recomendaciones_ok h'
  have hsnd : (numeradas bs).map Prod.snd =
      recs.filter (fun r => prioridad_efectiva r = str "alta") ++
      recs.filter (fun r => prioridad_efectiva r = str "media") ++
      recs.filter (fun r => prioridad_efectiva r = str "baja") := by
    rw [hnum]
    simp [List.map_append, List.map_snd_zip, List.length_range']
  have hfst : (numeradas bs).map Prod.fst = List.range' 1 recs.length := by
    rw [hnum]
    simp only [List.map_append]
    rw [List.map_fst_zip _ _ (by rw [List.length_range']),
      List.map_fst_zip _ _ (by rw [List.length_range']),
      List.map_fst_zip _ _ (by rw [List.length_range'])]
    have hA := List.range'_append 1
      (recs.filter (fun r => prioridad_efectiva r = str "alta")).length
      (recs.filter (fun r => prioridad_efectiva r = str "media")).length 1
    rw [Nat.one_mul] at hA
    rw [hA]
    have hB := List.range'_append 1
      ((recs.filter (fun r => prioridad_efectiva r = str "media")).length +
        (recs.filter (fun r => prioridad_efectiva r = str "alta")).length)
      (recs.filter (fun r => prioridad_efectiva r = str "baja")).length 1
    rw [Nat.one_mul] at hB
    rw [show 1 + (recs.filter (fun r => prioridad_efectiva r = str "alta")).length +
        (recs.filter (fun r => prioridad_efectiva r = str "media")).length =
        1 + ((recs.filter (fun r => prioridad_efectiva r = str "media")).length +
          (recs.filter (fun r => prioridad_efectiva r = str "alta")).length) from by omega]
    rw [hB]
    have := particion_tres h'
    congr 1
    omega
  refine ⟨bs, hbs, hsnd, hfst, ?_, ?_⟩
  · rw [hfst]
    exact (List.pairwise_lt_range' 1 recs.length).chain'
  · rw [hfst]
    exact List.nodup_range' 1 recs.length

/-- Witness for C5 on a sample list with interleaved priorities. -/
theorem C5_recomendaciones_ordenadas_witness :
    ∃ bs, crear_seccion_recomendaciones recsDemo = .ok bs ∧
      (numeradas bs).map Prod.snd =
        recsDemo.filter (fun r => prioridad_efectiva r = str "alta") ++
        recsDemo.filter (fun r => prioridad_efectiva r = str "media") ++
        recsDemo.filter (fun r => prioridad_efectiva r = str "baja") ∧
      (numeradas bs).map Prod.fst = List.range' 1 recsDemo.length ∧
      List.Chain' (· < ·) ((numeradas bs).map Prod.fst) ∧
      ((numeradas bs).map Prod.fst).Nodup :=
  C5_recomendaciones_ordenadas recsDemo (by decide)

/-- C10: a recommendation without a priority field is grouped into the
low-priority bucket (`rec.get('prioridad', 'baja')`); the section builds
without raising, no entry is dropped, and every priority-less entry appears
among the baja-group entries, which are rendered last. -/
theorem C10_sin_prioridad_en_baja (recs : List Recomendacion)
    (h : ∀ r ∈ recs, r.prioridad = some (str "alta") ∨ r.prioridad = some (str "media") ∨
      r.prioridad = some (str "baja") ∨ r.prioridad = none) :
    ∃ bs, crear_seccion_recomendaciones recs = .ok bs ∧
      (numeradas bs).map Prod.snd =
        recs.filter (fun r => prioridad_efectiva r = str "alta") ++
        recs.filter (fun r => prioridad_efectiva r = str "media") ++
        recs.filter (fun r => prioridad_efectiva r = str "baja") ∧
      ((numeradas bs).map Prod.snd).length = recs.length ∧
      (∀ r ∈ recs, r.prioridad = none →
        r ∈ recs.filter (fun r => prioridad_efectiva r = str "baja")) := by
  have h' : ∀ r ∈ recs, prioridad_efectiva r = str "alta" ∨
      prioridad_efectiva r = str "media" ∨ prioridad_efectiva r = str "baja" := by
    intro r hr
    rcases h r hr with hp | hp | hp | hp <;> simp [prioridad_efectiva, hp]
  obtain ⟨bs, hbs, hnum⟩ := seccion_recomendaciones_ok h'
  have hsnd : (numeradas bs).map Prod.snd =
      recs.filter (fun r => prioridad_efectiva r = str "alta") ++
      recs.filter (fun r => prioridad_efectiva r = str "media") ++
      recs.filter (fun r => prioridad_efectiva r = str "baja") := by
    rw [hnum]
    simp [List.map_append, List.map_snd_zip, List.length_range']
  refine ⟨bs, hbs, hsnd, ?_, ?_⟩
  · rw [hsnd]
    simp only [List.length_append]
    have := particion_tres h'
    omega
  · intro r hr hnone
    rw [List.mem_filter]
    exact ⟨hr, by simp [prioridad_efectiva, hnone]⟩

/-- Witness for C10 on a sample list with a priority-less entry. -/
theorem C10_sin_prioridad_en_baja_witness :
    ∃ bs, crear_seccion_recomendaciones recsDemoSin = .ok bs ∧
      (numeradas bs).map Prod.snd =
        recsDemoSin.filter (fun r => prioridad_efectiva r = str "alta") ++
        recsDemoSin.filter (fun r => prioridad_efectiva r = str "media") ++
        recsDemoSin.filter (fun r => prioridad_efectiva r = str "baja") ∧
      ((numeradas bs).map Prod.snd).length = recsDemoSin.length ∧
      (∀ r ∈ recsDemoSin, r.prioridad = none →
        r ∈ recsDemoSin.filter (fun r => prioridad_efectiva r = str "baja")) :=
  C10_sin_prioridad_en_baja recsDemoSin (by decide)

/-- C1: the markup sanitizer is idempotent — for every input text,
applying `limpiar_html_para_reportlab` twice equals applying it once. -/
theorem C1_sanitizador_idempotente (texto : List Char) :
    limpiar_html_para_reportlab (limpiar_html_para_reportlab texto) =
      limpiar_html_para_reportlab texto := by
  by_cases h0 : texto = []
  · rw [h0]; rfl
  · have hB1 : noBareBr (sub2 (sub1 texto)) = true := noBareBr_sub2 _
    have hB2 : noBareBr (sub3 (sub2 (sub1 texto))) = true := noBareBr_sub3go _ false hB1
    have hW2 : noBrWs (sub3 (sub2 (sub1 texto))) = true := noBrWs_sub3go _ false
    have hB3 : noBareBr (sub4 (sub3 (sub2 (sub1 texto)))) = true := noBareBr_sub4go _ false hB2
    have hW3 : noBrWs (sub4 (sub3 (sub2 (sub1 texto)))) = true := noBrWs_sub4go _ false hW2
    have hN3 : wsNormal (sub4 (sub3 (sub2 (sub1 texto)))) = true := wsNormal_sub4go _ false
    have hrw : limpiar_html_para_reportlab texto =
        pyStrip (sub4 (sub3 (sub2 (sub1 texto)))) := by
      unfold limpiar_html_para_reportlab
      rw [if_neg h0, sub5_id hW3]
    rw [hrw]
    exact limpiar_normal_id (noBareBr_pyStrip hB3) (noBrWs_pyStrip hW3)
      (wsNormal_pyStrip hN3) (noEdgeWs_pyStrip _)

end Historical
